import Mathlib

/-!
Verification of the create-fastreact project generator.

The development shallowly embeds the generator's TypeScript sources:
  * `src/create.ts` (and its sibling revision): `createProject`, `copyDir`,
    `toPascalCase`, endpoint-URL derivation and `.env.local` synthesis;
  * `src/index.ts` (and its sibling revision): `validateProjectName`, the
    prerequisite orchestration (`ensureClaudeCode`, `ensureModal`,
    `ensureVercel`), and the `main` pipeline.

Strings are Lean `String`s (lists of characters); the filesystem is a tree
of named files and directories; every external subprocess outcome (tool
detection, install, authentication, dependency installation, git) is an
explicit boolean/option input, and the commands issued as well as the
console lines printed (colour codes stripped) are returned as lists, so
that properties about traces and messages can be stated.
-/

namespace CreateFastreact

/-! ### Character-list string utilities

JavaScript's `String.prototype.replace` with a global literal pattern scans
the subject left to right, replaces each non-overlapping occurrence, and
never rescans replacement text.  `replaceAllAux p r k s` models this; `k`
counts characters of a just-matched pattern still to be consumed. -/

def replaceAllAux (p r : List Char) : Nat → List Char → List Char
  | _, [] => []
  | 0, c :: rest =>
      if p.isPrefixOf (c :: rest) && !p.isEmpty then
        r ++ replaceAllAux p r (p.length - 1) rest
      else
        c :: replaceAllAux p r 0 rest
  | k + 1, _ :: rest => replaceAllAux p r k rest

def replaceAll (p r s : List Char) : List Char :=
  replaceAllAux p r 0 s

/-- Model of `subject.replace(/pattern/g, replacement)` for a literal pattern. -/
def strReplace (s p r : String) : String :=
  String.mk (replaceAll p.data r.data s.data)

/-- Does `p` occur as a contiguous substring? -/
def containsPat (p : List Char) : List Char → Bool
  | [] => p.isEmpty
  | c :: rest => p.isPrefixOf (c :: rest) || containsPat p rest

def containsSub (needle hay : String) : Bool :=
  containsPat needle.data hay.data

/-- One step of line splitting: a newline opens a fresh line, any other
character extends the current (first) line. -/
def splitNLstep (c : Char) (acc : List (List Char)) : List (List Char) :=
  if c = '\n' then [] :: acc
  else
    match acc with
    | [] => [[c]]
    | l :: ls => (c :: l) :: ls

/-- Split a character list at newline characters (the list of lines of a
generated text file; a trailing newline yields a final empty line). -/
def splitNL (s : List Char) : List (List Char) :=
  s.foldr splitNLstep [[]]

def linesOf (s : String) : List (List Char) :=
  splitNL s.data

/-! ### Token substitution (src/create.ts `copyDir` lines 230-235, `toPascalCase`) -/

/-- The first substitution token, `{{projectName}}` (braces written as
hexadecimal escapes). -/
def nameToken : String := "\x7b\x7bprojectName\x7d\x7d"

/-- The second substitution token, `{{projectNamePascal}}`. -/
def pascalToken : String := "\x7b\x7bprojectNamePascal\x7d\x7d"

/-- `str.split("-")` on character lists, JavaScript semantics
(`"a--b" ↦ ["a","","b"]`, `"" ↦ [""]`). `cur` holds the current chunk
reversed. -/
def splitDashAux (cur : List Char) : List Char → List (List Char)
  | [] => [cur.reverse]
  | c :: rest =>
      if c = '-' then cur.reverse :: splitDashAux [] rest
      else splitDashAux (c :: cur) rest

/-- `word.charAt(0).toUpperCase() + word.slice(1)`. -/
def capitalizeWord : List Char → List Char
  | [] => []
  | c :: rest => c.toUpper :: rest

/-- `toPascalCase` from src/create.ts lines 243-248: split on `-`,
capitalize the first character of each chunk, join. -/
def toPascalCase (s : String) : String :=
  String.mk (List.flatten ((splitDashAux [] s.data).map capitalizeWord))

/-- The content transformation applied to `.hbs` template files
(src/create.ts lines 232-234): replace all `{{projectName}}`, then all
`{{projectNamePascal}}`. -/
def substitute (pn content : String) : String :=
  strReplace (strReplace content nameToken pn) pascalToken (toPascalCase pn)

/-! ### Project-name validation (src/index.ts `validateProjectName`) -/

/-- Character class `[a-z0-9-]`. -/
def validChar (c : Char) : Bool :=
  ('a' ≤ c && c ≤ 'z') || ('0' ≤ c && c ≤ '9') || c == '-'

/-- `/^[a-z0-9-]+$/.test name`. -/
def matchesNamePattern (s : String) : Bool :=
  !s.data.isEmpty && s.data.all validChar

/-- `validateProjectName` from src/index.ts lines 18-24: `some msg` models
returning the error string, `none` models returning `true` (accepted). -/
def validateProjectName (name : String) : Option String :=
  if name.isEmpty then some "Project name is required"
  else if !matchesNamePattern name then
    some "Project name can only contain lowercase letters, numbers, and hyphens"
  else none

/-! ### Filesystem trees and `copyDir` (src/create.ts lines 207-241) -/

inductive FSEntry where
  | file (name content : String)
  | dir (name : String) (entries : List FSEntry)

mutual

def decEqFSEntry : (a b : FSEntry) → Decidable (a = b)
  | .file n c, .file n' c' =>
      match String.decEq n n' with
      | isFalse h => isFalse (by intro k; cases k; exact h rfl)
      | isTrue h1 =>
        match String.decEq c c' with
        | isFalse h => isFalse (by intro k; cases k; exact h rfl)
        | isTrue h2 => isTrue (by rw [h1, h2])
  | .file _ _, .dir _ _ => isFalse nofun
  | .dir _ _, .file _ _ => isFalse nofun
  | .dir n es, .dir n' es' =>
      match String.decEq n n' with
      | isFalse h => isFalse (by intro k; cases k; exact h rfl)
      | isTrue h1 =>
        match decEqFSList es es' with
        | isFalse h => isFalse (by intro k; cases k; exact h rfl)
        | isTrue h2 => isTrue (by rw [h1, h2])

def decEqFSList : (a b : List FSEntry) → Decidable (a = b)
  | [], [] => isTrue rfl
  | [], _ :: _ => isFalse nofun
  | _ :: _, [] => isFalse nofun
  | a :: as, b :: bs =>
      match decEqFSEntry a b with
      | isFalse h => isFalse (by intro k; cases k; exact h rfl)
      | isTrue h1 =>
        match decEqFSList as bs with
        | isFalse h => isFalse (by intro k; cases k; exact h rfl)
        | isTrue h2 => isTrue (by rw [h1, h2])

end

instance : DecidableEq FSEntry := decEqFSEntry

def FSEntry.name : FSEntry → String
  | .file n _ => n
  | .dir n _ => n

/-- Writing an output entry into a directory: an existing entry with the same
name is silently replaced (`writeFileSync`/`copyFileSync` overwrite). -/
def insertEntry (acc : List FSEntry) (e : FSEntry) : List FSEntry :=
  acc.filter (fun x => !(x.name == e.name)) ++ [e]

/-- The hard-exclude set of src/create.ts line 217. -/
def excludedNames : List String :=
  ["node_modules", ".venv", "__pycache__", ".git", "pnpm-lock.yaml", "uv.lock"]

/-- `entry.name.endsWith(".hbs")`. -/
def isHbs (n : String) : Bool :=
  (['s', 'b', 'h', '.'] : List Char).isPrefixOf n.data.reverse

/-- `destPath.slice(0, -4)`: drop the final four characters. -/
def stripHbs (n : String) : String :=
  String.mk (n.data.take (n.data.length - 4))

/-- Destination file name: `gitignore` is renamed to `.gitignore`
(src/create.ts lines 225-227), then a `.hbs` suffix on the source name
strips four characters from the destination (lines 230-231). -/
def copyDestName (n : String) : String :=
  let d := if n == "gitignore" then ".gitignore" else n
  if isHbs n then stripHbs d else d

/-- First entry with the given name (directory lookup). -/
def findByName (n : String) (l : List FSEntry) : Option FSEntry :=
  l.find? (fun x => x.name == n)

/-- The filesystem error a collision between a file and a directory at one
destination path raises: `writeFileSync`/`copyFileSync` onto an existing
directory throws `EISDIR`, `mkdirSync` onto an existing file throws
`EEXIST`.  A file writing over an existing file is not an error — it
overwrites. -/
inductive CopyError where
  | fileOverDir (name : String)
  | dirOverFile (name : String)
deriving DecidableEq

mutual

/-- One non-excluded entry of the `copyDir` loop (src/create.ts lines
221-238), written into the destination directory `acc`.  A file lands at
its translated destination name (`.hbs` files get token-substituted
content, all other files are copied byte for byte): over an existing file
it silently overwrites, over an existing directory the write throws
`EISDIR`.  A directory is `mkdirSync`-ed — a no-op merge over an existing
directory, `EEXIST` over an existing file — and its entries are then
copied into it recursively; an inner error aborts the whole copy but the
partial result written so far is kept. -/
def copyOneInto (pn : String) (acc : List FSEntry) :
    FSEntry → List FSEntry × Option CopyError
  | .file n c =>
      let d := copyDestName n
      let content := if isHbs n then substitute pn c else c
      match findByName d acc with
      | some (.dir _ _) => (acc, some (.fileOverDir d))
      | _ => (insertEntry acc (.file d content), none)
  | .dir n es =>
      match findByName n acc with
      | some (.file _ _) => (acc, some (.dirOverFile n))
      | some (.dir _ sub) =>
          let r := copyListInto pn sub es
          (insertEntry acc (.dir n r.1), r.2)
      | none =>
          let r := copyListInto pn [] es
          (insertEntry acc (.dir n r.1), r.2)

/-- The `for (const entry of entries)` loop of `copyDir` (src/create.ts
lines 212-240): entries are processed in order, hard-excluded names are
skipped, and the first filesystem error aborts the loop (the exception
propagates out of `copyDir`), keeping what was already written. -/
def copyListInto (pn : String) (acc : List FSEntry) :
    List FSEntry → List FSEntry × Option CopyError
  | [] => (acc, none)
  | e :: rest =>
      if excludedNames.contains e.name then copyListInto pn acc rest
      else
        match copyOneInto pn acc e with
        | (acc2, some err) => (acc2, some err)
        | (acc2, none) => copyListInto pn acc2 rest

end

/-- `copyDir(src, dest, projectName)` into an initially-empty destination:
the resulting entries of the destination directory, plus the filesystem
error that aborted the copy, if any. -/
def copyDir (pn : String) (es : List FSEntry) : List FSEntry × Option CopyError :=
  copyListInto pn [] es

/-- Does the destination directory currently hold a directory under this
name?  (The situation in which a file write throws `EISDIR`.) -/
def isDirAt (d : String) (l : List FSEntry) : Bool :=
  match findByName d l with
  | some (.dir _ _) => true
  | _ => false

mutual

/-- Modelled from the spec: the per-entry translation of the
structural-mirror description in section 4.3 — prune hard-excluded names,
translate reserved names by the fixed table, strip the substitution-marker
extension and substitute tokens; every surviving source entry contributes
exactly one output entry. -/
def mirrorEntry (pn : String) : FSEntry → Option FSEntry
  | .file n c =>
      if excludedNames.contains n then none
      else
        some (.file (copyDestName n) (if isHbs n then substitute pn c else c))
  | .dir n es =>
      if excludedNames.contains n then none
      else some (.dir n (mirrorDir pn es))

/-- Modelled from the spec: the structural mirror of a directory keeps one
translated image per non-excluded source entry, in source order. -/
def mirrorDir (pn : String) : List FSEntry → List FSEntry
  | [] => []
  | e :: rest =>
      match mirrorEntry pn e with
      | none => mirrorDir pn rest
      | some e2 => e2 :: mirrorDir pn rest

end

/-- Destination name of an entry, `none` when it is pruned. -/
def destOf : FSEntry → Option String
  | .file n _ => if excludedNames.contains n then none else some (copyDestName n)
  | .dir n _ => if excludedNames.contains n then none else some n

def destsOf (es : List FSEntry) : List String :=
  es.filterMap destOf

/-- Pairwise distinctness of a list of names. -/
def distinctB : List String → Bool
  | [] => true
  | x :: xs => !(xs.contains x) && distinctB xs

mutual

/-- No two entries of any directory of the tree map to the same
destination name. -/
def noCollideEntry : FSEntry → Bool
  | .file _ _ => true
  | .dir _ es => distinctB (destsOf es) && noCollideList es

def noCollideList : List FSEntry → Bool
  | [] => true
  | e :: rest => noCollideEntry e && noCollideList rest

end

def noCollideTop (es : List FSEntry) : Bool :=
  distinctB (destsOf es) && noCollideList es

def hasDirNamed (n : String) (l : List FSEntry) : Bool :=
  l.any fun e =>
    match e with
    | .dir d _ => d == n
    | .file _ _ => false

/-- `writeFileSync(join(root, d, fn), c)`: requires the sub-directory `d`
to exist, and overwrites a same-named file inside it. -/
def writeInDir (l : List FSEntry) (d fn c : String) : Option (List FSEntry) :=
  if hasDirNamed d l then
    some (l.map fun e =>
      match e with
      | .dir d' es => if d' == d then .dir d' (insertEntry es (.file fn c)) else .dir d' es
      | .file n' c' => .file n' c')
  else none

/-! ### Endpoint derivation and `.env.local` synthesis (src/create.ts lines 112-131) -/

def devApiUrl (username pn : String) : String :=
  "https://" ++ username ++ "--" ++ pn ++ "-backend-fastapi-app-dev.modal.run"

def prodApiUrl (username pn : String) : String :=
  "https://" ++ username ++ "--" ++ pn ++ "-backend-fastapi-app.modal.run"

/-- The `authSection` template of src/create.ts lines 117-123: the real pair
only when both halves are non-empty (JavaScript truthiness of
`modalKey && modalSecret`), otherwise the commented placeholder block. -/
def authSection (modalKey modalSecret : String) : String :=
  if !modalKey.isEmpty && !modalSecret.isEmpty then
    "VITE_MODAL_KEY=" ++ modalKey ++ "\nVITE_MODAL_SECRET=" ++ modalSecret
  else
    "# Proxy auth not configured - API is publicly accessible\n# Add these for production security:\n# VITE_MODAL_KEY=wk-xxx\n# VITE_MODAL_SECRET=ws-xxx"

/-- The generated `frontend/.env.local` content (src/create.ts lines 125-131). -/
def envLocalContent (username pn modalKey modalSecret : String) : String :=
  "# Modal API Configuration (Development)\nVITE_API_URL=" ++ devApiUrl username pn
    ++ "\n" ++ authSection modalKey modalSecret
    ++ "\n\n# Production URL (for reference, configure in Vercel)\n# VITE_API_URL="
    ++ prodApiUrl username pn ++ "\n"

/-! ### `createProject` (src/create.ts lines 84-205)

Inputs: the configuration, the state of the target directory (`none` =
does not exist, `some es` = exists with entries `es`), the state of the
template directory, and the outcomes of the post-materialization
subprocesses.  Console colour codes are stripped; multi-argument
`console.log` calls are joined with one space; the working-directory part
of the printed target path is not modelled.  `git init` / `git add` /
`git commit` run with failures silently swallowed and their effect on the
tree (a `.git` directory) is not part of the generated-tree model. -/

structure ProjectConfig where
  projectName : String
  modalUsername : String
  modalKey : String
  modalSecret : String
  appDescription : String

structure SubprocResults where
  gitInitOk : Bool
  gitAddOk : Bool
  pnpmRootOk : Bool
  pnpmFrontendOk : Bool
  uvBackendOk : Bool
  uvAgentOk : Bool
  gitAddFinalOk : Bool
  gitCommitOk : Bool

inductive CreateError where
  | dirNotEmpty
  | templateMissing
  | copyFailed (e : CopyError)
  | envWriteFailed
deriving DecidableEq

/-- The `Error` message thrown on each fatal `createProject` path (the
`copyFailed` and `envWriteFailed` messages abstract the Node fs errors
that propagate uncaught out of `createProject`). -/
def createErrorMessage (cfg : ProjectConfig) : CreateError → String
  | .dirNotEmpty => "Directory \"" ++ cfg.projectName ++ "\" already exists and is not empty."
  | .templateMissing => "Could not find template directory"
  | .copyFailed (CopyError.fileOverDir _) => "EISDIR: illegal operation on a directory"
  | .copyFailed (CopyError.dirOverFile _) => "EEXIST: file already exists"
  | .envWriteFailed => "ENOENT: no such file or directory"

/-- `generateAppSpec` from src/create.ts (agent revision) lines 17-82. -/
def generateAppSpec (cfg : ProjectConfig) : String :=
  "# " ++ cfg.projectName ++ "\n\n" ++ cfg.appDescription
    ++ "\n\n## Tech Stack\n\n### Frontend\n- React 19 + TypeScript\n- Vite for build tooling\n- Tailwind CSS v4 for styling\n- shadcn/ui for UI components (add with: `pnpm dlx shadcn@latest add <component>`)\n- Path alias: `@/` maps to `src/`\n\n### Backend\n- FastAPI (Python 3.12)\n- Modal for serverless deployment\n- RESTful API design\n\n## Project Structure\n\n```\n"
    ++ cfg.projectName
    ++ "/\n├── frontend/           # React application\n│   ├── src/\n│   │   ├── components/ # UI components\n│   │   ├── lib/        # Utilities and API client\n│   │   ├── App.tsx     # Main app component\n│   │   └── main.tsx    # Entry point\n│   └── package.json\n├── backend/            # FastAPI application\n│   ├── app/\n│   │   └── main.py     # FastAPI routes\n│   └── modal_app.py    # Modal deployment config\n├── agent/              # AI coding agent\n│   └── agent.py        # Autonomous agent\n├── app_spec.md         # This file\n└── claude-progress.txt # AI session notes\n```\n\n## Development\n\n```bash\n# Frontend (http://localhost:5173)\ncd frontend && pnpm run dev\n\n# Backend (Modal dev server)\ncd backend && modal serve modal_app.py\n\n# Run AI agent\nuv run agent\n```\n\n## Guidelines for AI Agent\n\n1. Read this spec carefully to understand what to build\n2. Break down the app description into discrete features\n3. Implement one feature at a time\n4. Test each feature before moving on\n5. Use shadcn/ui components for UI\n6. Commit after each feature with descriptive messages\n7. Update claude-progress.txt with session notes\n"

/-- The initial `claude-progress.txt` content (src/create.ts lines 141-150). -/
def progressContent (cfg : ProjectConfig) : String :=
  "# " ++ cfg.projectName
    ++ " - Development Progress\n\n## App Description\n" ++ cfg.appDescription
    ++ "\n\n## Session Notes\n(AI agent will append notes here after each session)\n\n---\n"

def warnRootDeps : String :=
  "  Warning: Could not install root dependencies. Run 'pnpm install' manually."

def warnFrontendDeps : String :=
  "  Warning: Could not install frontend dependencies. Run 'pnpm install' in frontend/ manually."

def warnBackendDeps : String :=
  "  Warning: Could not install backend dependencies. Run 'uv sync' in backend/ manually."

def warnAgentDeps : String :=
  "  Warning: Could not install agent dependencies. Run 'uv sync' in agent/ manually."

structure CreateOutcome where
  targetAfter : Option (List FSEntry)
  error : Option CreateError
  warnings : List String
  outputs : List String
  scaffolded : Bool

/-- The body of `createProject` after the pre-existing-directory check:
template lookup, materialization, `.env.local` / `app_spec.md` /
`claude-progress.txt` synthesis, then the best-effort post steps. -/
def createProjectGo (cfg : ProjectConfig) (target : Option (List FSEntry))
    (templateDir : Option (List FSEntry)) (sub : SubprocResults) : CreateOutcome :=
  let out0 : List String := ["", "Creating project in " ++ cfg.projectName ++ "..."]
  match templateDir with
  | none => ⟨target, some .templateMissing, [], out0, false⟩
  | some tmpl =>
    let r := copyDir cfg.projectName tmpl
    match r.2 with
    | some ce => ⟨some r.1, some (.copyFailed ce), [], out0, false⟩
    | none =>
    let tree := r.1
    match writeInDir tree "frontend" ".env.local"
        (envLocalContent cfg.modalUsername cfg.projectName cfg.modalKey cfg.modalSecret) with
    | none => ⟨some tree, some .envWriteFailed, [], out0, false⟩
    | some tree1 =>
      let tree2 := insertEntry tree1 (.file "app_spec.md" (generateAppSpec cfg))
      let tree3 := insertEntry tree2 (.file "claude-progress.txt" (progressContent cfg))
      let w1 : List String := if sub.pnpmRootOk then [] else [warnRootDeps]
      let w2 : List String := if sub.pnpmFrontendOk then [] else [warnFrontendDeps]
      let w3 : List String := if sub.uvBackendOk then [] else [warnBackendDeps]
      let w4 : List String := if sub.uvAgentOk then [] else [warnAgentDeps]
      let outs := out0
        ++ ["  Generating app_spec.md...", "  Creating claude-progress.txt...",
            "  Initializing git repository...", "  Installing dependencies..."]
        ++ w1 ++ ["  Installing frontend dependencies..."] ++ w2
        ++ ["  Installing backend dependencies..."] ++ w3
        ++ ["  Installing agent dependencies..."] ++ w4
        ++ ["  Creating initial commit...", "", "✔ Scaffolded " ++ cfg.projectName]
      ⟨some tree3, none, w1 ++ w2 ++ w3 ++ w4, outs, true⟩

/-- `createProject` (src/create.ts lines 84-205): fails first when the
target directory exists and is non-empty, before any write. -/
def createProject (cfg : ProjectConfig) (target : Option (List FSEntry))
    (templateDir : Option (List FSEntry)) (sub : SubprocResults) : CreateOutcome :=
  match target with
  | some es =>
      if !es.isEmpty then ⟨some es, some .dirNotEmpty, [], [], false⟩
      else createProjectGo cfg (some es) templateDir sub
  | none => createProjectGo cfg none templateDir sub

/-! ### Prerequisite orchestration (src/index.ts, agent revision)

Each subprocess invocation issued by the orchestrator is recorded as a
`Cmd`.  The environment `OrchEnv` fixes the outcome of each detection,
install, authentication and prompt interaction of one run. -/

inductive Cmd where
  | claudeVersion
  | modalVersion
  | modalProfileCurrent
  | vercelVersion
  | vercelWhoami
  | uvToolInstallModal
  | modalSetup
  | npmInstallGVercel
  | vercelLogin
deriving DecidableEq

/-- Detection commands: version and identity checks. -/
def Cmd.isDetect : Cmd → Bool
  | .claudeVersion | .modalVersion | .modalProfileCurrent
  | .vercelVersion | .vercelWhoami => true
  | _ => false

structure OrchEnv where
  claudeVersionOk : Bool
  claudeOutputHasClaudeCode : Bool
  modalInstalled : Bool
  modalUserBefore : Option String
  modalInstallAccepted : Bool
  modalInstallOk : Bool
  modalLoginAccepted : Bool
  modalSetupOk : Bool
  modalUserAfter : Option String
  vercelInstalled : Bool
  vercelUserBefore : Option String
  vercelInstallAccepted : Bool
  vercelInstallOk : Bool
  vercelLoginAccepted : Bool
  vercelLoginCmdOk : Bool
  vercelUserAfter : Option String

/-- `ensureClaudeCode` (src/index.ts lines 327-348): two `claude --version`
detections, no install or auth command ever runs for Claude Code. -/
def ensureClaudeCode (env : OrchEnv) : Bool × List Cmd × List String :=
  if !env.claudeVersionOk then
    (false, [Cmd.claudeVersion],
     ["  ✖ Claude Code CLI not found", "",
      "  Claude Code is required for the AI coding agent.",
      "  Install: npm install -g @anthropic-ai/claude-code",
      "  Or visit: https://docs.anthropic.com/en/docs/claude-code"])
  else if !(env.claudeVersionOk && env.claudeOutputHasClaudeCode) then
    (false, [Cmd.claudeVersion, Cmd.claudeVersion],
     ["  ⚠ Claude Code not authenticated", "",
      "  Run 'claude' in your terminal and complete the login flow."])
  else
    (true, [Cmd.claudeVersion, Cmd.claudeVersion], ["  ✔ Claude Code authenticated"])

/-- `installModal` (src/index.ts lines 498-513). -/
def installModal (env : OrchEnv) : Bool × List Cmd × List String :=
  if env.modalInstallOk then
    (true, [Cmd.uvToolInstallModal],
     ["  Installing Modal CLI...", "  ✔ Modal CLI installed"])
  else
    (false, [Cmd.uvToolInstallModal],
     ["  Installing Modal CLI...", "  ✖ Failed to install Modal CLI",
      "    Try manually: uv tool install modal"])

/-- `loginModal` (src/index.ts lines 515-534): runs `modal setup`, and on
success re-detects the identity; any failure prints only
"Modal login failed". -/
def loginModal (env : OrchEnv) : Bool × List Cmd × List String :=
  let pre : List String := ["  Opening browser for Modal login...", ""]
  if env.modalSetupOk then
    match env.modalUserAfter with
    | some u =>
        (true, [Cmd.modalSetup, Cmd.modalProfileCurrent],
         pre ++ ["", "  ✔ Logged in as " ++ u])
    | none =>
        (false, [Cmd.modalSetup, Cmd.modalProfileCurrent],
         pre ++ ["  ✖ Modal login failed"])
  else
    (false, [Cmd.modalSetup], pre ++ ["  ✖ Modal login failed"])

/-- The login half of `ensureModal` (src/index.ts lines 563-591), entered
with the trace and output accumulated by the install half. -/
def ensureModalLogin (env : OrchEnv) (tr0 : List Cmd) (out0 : List String) :
    Option String × List Cmd × List String :=
  let tr1 := tr0 ++ [Cmd.modalProfileCurrent]
  match env.modalUserBefore with
  | some u => (some u, tr1, out0)
  | none =>
    let o1 := out0 ++ ["  ⚠ Not logged in to Modal", ""]
    if !env.modalLoginAccepted then
      (none, tr1,
       o1 ++ ["", "  Modal account required for the backend.",
              "  Log in manually: modal setup"])
    else
      match loginModal env with
      | (ok, tr2, o2) =>
        if ok then (env.modalUserAfter, tr1 ++ tr2 ++ [Cmd.modalProfileCurrent], o1 ++ [""] ++ o2)
        else (none, tr1 ++ tr2, o1 ++ [""] ++ o2)

/-- `ensureModal` (src/index.ts lines 536-592). -/
def ensureModal (env : OrchEnv) : Option String × List Cmd × List String :=
  if env.modalInstalled then ensureModalLogin env [Cmd.modalVersion] []
  else
    let o0 : List String := ["  ⚠ Modal CLI not found", ""]
    if !env.modalInstallAccepted then
      (none, [Cmd.modalVersion],
       o0 ++ ["", "  Modal is required for the backend.",
              "  Install manually: uv tool install modal"])
    else
      match installModal env with
      | (ok, tr2, o2) =>
        if ok then ensureModalLogin env ([Cmd.modalVersion] ++ tr2) (o0 ++ [""] ++ o2 ++ [""])
        else (none, [Cmd.modalVersion] ++ tr2, o0 ++ [""] ++ o2)

/-- `installVercel` (src/index.ts lines 372-387). -/
def installVercel (env : OrchEnv) : Bool × List Cmd × List String :=
  if env.vercelInstallOk then
    (true, [Cmd.npmInstallGVercel],
     ["  Installing Vercel CLI...", "  ✔ Vercel CLI installed"])
  else
    (false, [Cmd.npmInstallGVercel],
     ["  Installing Vercel CLI...", "  ✖ Failed to install Vercel CLI",
      "    Try manually: npm install -g vercel"])

/-- `loginVercel` (src/index.ts lines 389-408). -/
def loginVercel (env : OrchEnv) : Bool × List Cmd × List String :=
  let pre : List String := ["  Opening browser for Vercel login...", ""]
  if env.vercelLoginCmdOk then
    match env.vercelUserAfter with
    | some u =>
        (true, [Cmd.vercelLogin, Cmd.vercelWhoami],
         pre ++ ["", "  ✔ Logged in as " ++ u])
    | none =>
        (false, [Cmd.vercelLogin, Cmd.vercelWhoami],
         pre ++ ["  ✖ Vercel login failed"])
  else
    (false, [Cmd.vercelLogin], pre ++ ["  ✖ Vercel login failed"])

/-- The login half of `ensureVercel` (src/index.ts lines 437-465). -/
def ensureVercelLogin (env : OrchEnv) (tr0 : List Cmd) (out0 : List String) :
    Option String × List Cmd × List String :=
  let tr1 := tr0 ++ [Cmd.vercelWhoami]
  match env.vercelUserBefore with
  | some u => (some u, tr1, out0)
  | none =>
    let o1 := out0 ++ ["  ⚠ Not logged in to Vercel", ""]
    if !env.vercelLoginAccepted then
      (none, tr1,
       o1 ++ ["", "  Vercel account required for frontend deployment.",
              "  Log in manually: vercel login"])
    else
      match loginVercel env with
      | (ok, tr2, o2) =>
        if ok then (env.vercelUserAfter, tr1 ++ tr2 ++ [Cmd.vercelWhoami], o1 ++ [""] ++ o2)
        else (none, tr1 ++ tr2, o1 ++ [""] ++ o2)

/-- `ensureVercel` (src/index.ts lines 410-466). -/
def ensureVercel (env : OrchEnv) : Option String × List Cmd × List String :=
  if env.vercelInstalled then ensureVercelLogin env [Cmd.vercelVersion] []
  else
    let o0 : List String := ["  ⚠ Vercel CLI not found", ""]
    if !env.vercelInstallAccepted then
      (none, [Cmd.vercelVersion],
       o0 ++ ["", "  Vercel is required for frontend deployment.",
              "  Install manually: npm install -g vercel"])
    else
      match installVercel env with
      | (ok, tr2, o2) =>
        if ok then ensureVercelLogin env ([Cmd.vercelVersion] ++ tr2) (o0 ++ [""] ++ o2 ++ [""])
        else (none, [Cmd.vercelVersion] ++ tr2, o0 ++ [""] ++ o2)

/-- The banner template literal of src/index.ts lines 294-301, colours
stripped. -/
def bannerText : String :=
  "\n  ╭─────────────────────────────────────────╮\n  │                                         │\n  │   fastreact                             │\n  │   AI-First Full-Stack Framework         │\n  │                                         │\n  ╰─────────────────────────────────────────╯\n"

structure PrereqOutcome where
  result : Option (String × String)
  trace : List Cmd
  outputs : List String

/-- The prerequisite phase of `main` (src/index.ts lines 594-626): Claude
Code, then Modal, then Vercel; the first tool that cannot be made ready
aborts the run. -/
def mainPrereq (env : OrchEnv) : PrereqOutcome :=
  let hd := [bannerText, "  Checking prerequisites...", ""]
  match ensureClaudeCode env with
  | (cOk, cTr, cOut) =>
    if cOk then
      match ensureModal env with
      | (mRes, mTr, mOut) =>
        match mRes with
        | none =>
            ⟨none, cTr ++ mTr, hd ++ cOut ++ mOut ++ ["\nModal setup required. Exiting."]⟩
        | some mu =>
          let mo := ["  ✔ Modal authenticated (" ++ mu ++ ")"]
          match ensureVercel env with
          | (vRes, vTr, vOut) =>
            match vRes with
            | none =>
                ⟨none, cTr ++ mTr ++ vTr,
                 hd ++ cOut ++ mOut ++ mo ++ vOut ++ ["\nVercel setup required. Exiting."]⟩
            | some vu =>
                ⟨some (mu, vu), cTr ++ mTr ++ vTr,
                 hd ++ cOut ++ mOut ++ mo ++ vOut
                   ++ ["  ✔ Vercel authenticated (" ++ vu ++ ")", "",
                       "  All prerequisites ready!", ""]⟩
    else ⟨none, cTr, hd ++ cOut ++ ["\nClaude Code setup required. Exiting."]⟩

/-! ### The interaction session and the whole pipeline (src/index.ts `main`) -/

structure SessionInputs where
  projectNameInput : Option String
  descriptionInput : Option String
  configureAuth : Bool
  keyInput : Option String
  secretInput : Option String
  launchAgent : Bool

/-- The prompts library resolves the project-name prompt only with a value
its validator accepts; an input that never validates, or a cancel, yields
no value.  Re-prompt loops are collapsed into this single step. -/
def resolveProjectName (s : SessionInputs) : Option String :=
  match s.projectNameInput with
  | none => none
  | some n =>
    match validateProjectName n with
    | some _ => none
    | none => some n

/-- The description prompt: resolves only with a non-empty value. -/
def resolveDescription (s : SessionInputs) : Option String :=
  match s.descriptionInput with
  | none => none
  | some d => if d.isEmpty then none else some d

/-- The credential pair (src/index.ts lines 667-692): absent prompt answers
default to the empty string, and nothing is asked when auth configuration
is declined. -/
def resolveAuthPair (s : SessionInputs) : String × String :=
  if s.configureAuth then (s.keyInput.getD "", s.secretInput.getD "") else ("", "")

structure RunOutcome where
  targetAfter : Option (List FSEntry)
  exitCode : Nat
  trace : List Cmd
  outputs : List String

/-- The whole `main` pipeline (src/index.ts lines 594-755): prerequisite
orchestration, interaction session, then `createProject`; the recorded
trace is the orchestrator's subprocess trace. -/
def mainRun (env : OrchEnv) (sess : SessionInputs) (target templateDir : Option (List FSEntry))
    (sub : SubprocResults) : RunOutcome :=
  let p := mainPrereq env
  match p.result with
  | none => ⟨target, 1, p.trace, p.outputs⟩
  | some (mu, _vu) =>
    match resolveProjectName sess with
    | none => ⟨target, 1, p.trace, p.outputs ++ ["\nOperation cancelled."]⟩
    | some pn =>
      let out1 := p.outputs ++ [""]
      match resolveDescription sess with
      | none => ⟨target, 1, p.trace, out1 ++ ["\nOperation cancelled."]⟩
      | some desc =>
        let out2 := out1 ++ [""]
        let authOuts : List String :=
          if sess.configureAuth then
            ["", "  Opening Modal proxy auth token page...",
             "  Create a new token and paste the values below.", ""]
          else []
        let ks := resolveAuthPair sess
        let cfg : ProjectConfig := ⟨pn, mu, ks.1, ks.2, desc⟩
        let co := createProject cfg target templateDir sub
        match co.error with
        | some e =>
            ⟨co.targetAfter, 1, p.trace,
             out2 ++ authOuts ++ co.outputs ++ ["\nError: " ++ createErrorMessage cfg e]⟩
        | none =>
          let summary : List String :=
            ["", "✔ Project created!", ""]
              ++ (if ks.1.isEmpty then
                    ["  Note: Proxy auth not configured (API publicly accessible)", ""]
                  else [])
              ++ ["  Next steps:", "", "    cd " ++ pn ++ "/agent", "    uv run agent", "",
                  "  The agent uses your Claude Code authentication.",
                  "  Monitor progress in feature_list.json and claude-progress.txt", ""]
              ++ (if sess.launchAgent then ["", "  Starting AI agent...", ""] else [])
          ⟨co.targetAfter, 0, p.trace, out2 ++ authOuts ++ co.outputs ++ summary⟩

/-! ### Failure-mode predicates over an orchestration environment -/

def claudeReady (env : OrchEnv) : Bool :=
  env.claudeVersionOk && env.claudeOutputHasClaudeCode

/-- The Modal install phase ends with the tool installed. -/
def modalInstallPhaseOk (env : OrchEnv) : Bool :=
  env.modalInstalled || (env.modalInstallAccepted && env.modalInstallOk)

def modalDeclinedInstall (env : OrchEnv) : Bool :=
  !env.modalInstalled && !env.modalInstallAccepted

def modalInstallFailed (env : OrchEnv) : Bool :=
  !env.modalInstalled && env.modalInstallAccepted && !env.modalInstallOk

def modalDeclinedLogin (env : OrchEnv) : Bool :=
  modalInstallPhaseOk env && env.modalUserBefore.isNone && !env.modalLoginAccepted

def modalAuthFailed (env : OrchEnv) : Bool :=
  modalInstallPhaseOk env && env.modalUserBefore.isNone && env.modalLoginAccepted
    && (!env.modalSetupOk || env.modalUserAfter.isNone)

def vercelInstallPhaseOk (env : OrchEnv) : Bool :=
  env.vercelInstalled || (env.vercelInstallAccepted && env.vercelInstallOk)

def vercelDeclinedInstall (env : OrchEnv) : Bool :=
  !env.vercelInstalled && !env.vercelInstallAccepted

def vercelInstallFailed (env : OrchEnv) : Bool :=
  !env.vercelInstalled && env.vercelInstallAccepted && !env.vercelInstallOk

def vercelDeclinedLogin (env : OrchEnv) : Bool :=
  vercelInstallPhaseOk env && env.vercelUserBefore.isNone && !env.vercelLoginAccepted

def vercelAuthFailed (env : OrchEnv) : Bool :=
  vercelInstallPhaseOk env && env.vercelUserBefore.isNone && env.vercelLoginAccepted
    && (!env.vercelLoginCmdOk || env.vercelUserAfter.isNone)

/-- Some Modal install/auth prompt was declined or install/auth command failed. -/
def modalFailCond (env : OrchEnv) : Bool :=
  modalDeclinedInstall env || modalInstallFailed env
    || modalDeclinedLogin env || modalAuthFailed env

/-- Some Vercel install/auth prompt was declined or install/auth command failed. -/
def vercelFailCond (env : OrchEnv) : Bool :=
  vercelDeclinedInstall env || vercelInstallFailed env
    || vercelDeclinedLogin env || vercelAuthFailed env

/-- Does some printed line contain the given text? -/
def anyContains (outs : List String) (needle : String) : Bool :=
  outs.any fun o => containsSub needle o

/-- Neither substitution token occurs in the string. -/
def tokenFree (s : String) : Bool :=
  !(containsPat nameToken.data s.data) && !(containsPat pascalToken.data s.data)

/-! ### Concrete fixtures used by witnesses and counterexamples -/

def envReady : OrchEnv :=
  ⟨true, true, true, some "alice", true, true, true, true, some "alice",
   true, some "ada", true, true, true, true, some "ada"⟩

/-- Modal installed but not logged in; the user accepts the login prompt and
the `modal setup` command fails. -/
def envModalSetupFails : OrchEnv :=
  ⟨true, true, true, none, true, true, true, false, none,
   true, some "ada", true, true, true, true, some "ada"⟩

def sessDemo : SessionInputs :=
  ⟨some "demo", some "a todo app", false, none, none, false⟩

/-- Modal CLI absent and the install prompt declined. -/
def envModalDeclined : OrchEnv :=
  ⟨true, true, false, none, false, false, false, false, none,
   true, some "ada", true, true, true, true, some "ada"⟩

def subAllOk : SubprocResults :=
  ⟨true, true, true, true, true, true, true, true⟩

def cfgDemo : ProjectConfig :=
  ⟨"demo", "alice", "", "", "a todo app"⟩

def tmplDemo : List FSEntry :=
  [FSEntry.dir "frontend"
     [FSEntry.file "index.html.hbs" "<title>\x7b\x7bprojectName\x7d\x7d</title>"],
   FSEntry.file "gitignore" "node_modules",
   FSEntry.dir "node_modules" [FSEntry.file "dep.js" "x"]]

/-! ## Helper lemmas -/

theorem mk_data_eq (s : String) : String.mk s.data = s := by
  cases s
  rfl

theorem splitNL_ne_nil (s : List Char) : splitNL s ≠ [] := by
  induction s with
  | nil => simp [splitNL]
  | cons c rest ih =>
      show splitNLstep c (splitNL rest) ≠ []
      by_cases h : c = '\n'
      · simp [splitNLstep, h]
      · simp only [splitNLstep, if_neg h]
        cases hs : splitNL rest with
        | nil => simp
        | cons l ls => simp

theorem splitNL_cons_newline (ys : List Char) : splitNL ('\n' :: ys) = [] :: splitNL ys := by
  simp [splitNL, splitNLstep]

theorem splitNL_append_nf (l ys : List Char) (h : ∀ c ∈ l, c ≠ '\n') :
    splitNL (l ++ ys) = (l ++ (splitNL ys).headI) :: (splitNL ys).tail := by
  have hne := splitNL_ne_nil ys
  unfold splitNL
  unfold splitNL at hne
  rw [List.foldr_append]
  induction l with
  | nil =>
      cases hs : List.foldr splitNLstep [[]] ys with
      | nil => exact absurd hs hne
      | cons a as => simp [hs]
  | cons c rest ih =>
      have hc : c ≠ '\n' := h c (List.mem_cons_self _ _)
      have ih2 := ih (fun x hx => h x (List.mem_cons_of_mem _ hx))
      rw [List.foldr_cons, ih2]
      simp [splitNLstep, if_neg hc]

theorem replaceAllAux_id_of_not_contains (p r s : List Char)
    (h : containsPat p s = false) : replaceAllAux p r 0 s = s := by
  induction s with
  | nil => rfl
  | cons c rest ih =>
      have hp : p.isPrefixOf (c :: rest) = false ∧ containsPat p rest = false := by
        simpa [containsPat] using h
      simp [replaceAllAux, hp.1, ih hp.2]

theorem strReplace_id_of_not_contains (s p r : String)
    (h : containsPat p.data s.data = false) : strReplace s p r = s := by
  unfold strReplace replaceAll
  rw [replaceAllAux_id_of_not_contains _ _ _ h]

theorem validateProjectName_some_of_not_matches (name : String)
    (h : matchesNamePattern name = false) : ∃ msg, validateProjectName name = some msg := by
  by_cases he : name.isEmpty
  · exact ⟨"Project name is required", by simp [validateProjectName, he]⟩
  · exact ⟨"Project name can only contain lowercase letters, numbers, and hyphens",
      by simp [validateProjectName, he, h]⟩

theorem copyListInto_append (pn : String) (l1 l2 acc : List FSEntry)
    (h : (copyListInto pn acc l1).2 = none) :
    copyListInto pn acc (l1 ++ l2) = copyListInto pn (copyListInto pn acc l1).1 l2 := by
  induction l1 generalizing acc with
  | nil => rfl
  | cons e rest ih =>
      by_cases hex : excludedNames.contains e.name = true
      · simp only [copyListInto, hex, if_true] at h ⊢
        exact ih acc h
      · have hexf : excludedNames.contains e.name = false := by
          simpa using hex
        simp only [copyListInto, hexf, Bool.false_eq_true, if_false] at h ⊢
        cases hco : copyOneInto pn acc e with
        | mk acc2 err =>
            cases err with
            | some e0 => rw [hco] at h; simp at h
            | none =>
                rw [hco] at h
                exact ih acc2 h

theorem findByName_insertEntry (l : List FSEntry) (e : FSEntry) :
    findByName e.name (insertEntry l e) = some e := by
  unfold findByName insertEntry
  induction l with
  | nil => simp [List.find?]
  | cons a l ih =>
      by_cases h : (a.name == e.name) = true
      · simp only [List.filter_cons]
        rw [if_neg (by simp [h])]
        exact ih
      · simp only [List.filter_cons]
        rw [if_pos (by simp [Bool.not_eq_true] at h ⊢; exact h)]
        rw [List.cons_append, List.find?_cons_of_neg _ (by simpa using h)]
        exact ih

/-! ## Claims -/

/-- Claim C1: for every target directory that already exists and is
non-empty, `createProject` fails with the directory-not-empty filesystem
error and performs no write (the target state is returned unchanged and
nothing is scaffolded); the same before-any-mutation failure occurs when
the template source root does not exist. -/
theorem claim1_createProject_failfast
    (cfg : ProjectConfig) (target templateDir : Option (List FSEntry)) (sub : SubprocResults) :
    (∀ es, target = some es → es ≠ [] →
        (createProject cfg target templateDir sub).error = some CreateError.dirNotEmpty
          ∧ (createProject cfg target templateDir sub).targetAfter = target
          ∧ (createProject cfg target templateDir sub).scaffolded = false)
      ∧ ((target = none ∨ target = some []) → templateDir = none →
        (createProject cfg target templateDir sub).error = some CreateError.templateMissing
          ∧ (createProject cfg target templateDir sub).targetAfter = target
          ∧ (createProject cfg target templateDir sub).scaffolded = false) := by
  constructor
  · rintro es rfl hne
    cases es with
    | nil => exact absurd rfl hne
    | cons a l => exact ⟨rfl, rfl, rfl⟩
  · rintro hdisj rfl
    rcases hdisj with rfl | rfl
    · exact ⟨rfl, rfl, rfl⟩
    · exact ⟨rfl, rfl, rfl⟩

theorem claim1_witness :
    (createProject cfgDemo (some [FSEntry.file "keep.txt" "x"]) (some tmplDemo) subAllOk).error
        = some CreateError.dirNotEmpty
      ∧ (createProject cfgDemo (some [FSEntry.file "keep.txt" "x"]) (some tmplDemo) subAllOk).targetAfter
          = some [FSEntry.file "keep.txt" "x"]
      ∧ (createProject cfgDemo none none subAllOk).error = some CreateError.templateMissing
      ∧ (createProject cfgDemo none none subAllOk).targetAfter = none := by
  refine ⟨?_, ?_, ?_, ?_⟩
  · exact ((claim1_createProject_failfast cfgDemo _ _ subAllOk).1 _ rfl (by decide)).1
  · exact ((claim1_createProject_failfast cfgDemo _ _ subAllOk).1 _ rfl (by decide)).2.1
  · exact ((claim1_createProject_failfast cfgDemo none none subAllOk).2 (Or.inl rfl) rfl).1
  · exact ((claim1_createProject_failfast cfgDemo none none subAllOk).2 (Or.inl rfl) rfl).2.1

/-- Claim C2: for every account name and project name the development and
production endpoint URLs share one common stem and differ only in the fixed
`-dev` segment before `.modal.run`; for `alice`/`demo` they are exactly the
two documented URLs. -/
theorem claim2_endpoint_urls :
    (∀ u p : String, ∃ pre : String,
        devApiUrl u p = pre ++ "-dev.modal.run" ∧ prodApiUrl u p = pre ++ ".modal.run")
      ∧ devApiUrl "alice" "demo" = "https://alice--demo-backend-fastapi-app-dev.modal.run"
      ∧ prodApiUrl "alice" "demo" = "https://alice--demo-backend-fastapi-app.modal.run" := by
  refine ⟨fun u p => ⟨"https://" ++ u ++ "--" ++ p ++ "-backend-fastapi-app", ?_, ?_⟩, rfl, rfl⟩
  · show devApiUrl u p = _
    unfold devApiUrl
    simp only [String.append_assoc]
    rfl
  · show prodApiUrl u p = _
    unfold prodApiUrl
    simp only [String.append_assoc]
    rfl

/-- Claim C4 (counterexample): token substitution is not idempotent for
every content string — replacing `{{projectNamePascal}}` can splice
surrounding text into a brand-new `{{projectName}}` token, which a second
application then rewrites.  Witnessed by project name `name` (which matches
`^[a-z0-9-]+$`) and content `{{project{{projectNamePascal}}}}`. -/
theorem claim4_cex :
    matchesNamePattern "name" = true
      ∧ substitute "name"
            (substitute "name" "\x7b\x7bproject\x7b\x7bprojectNamePascal\x7d\x7d\x7d\x7d")
          ≠ substitute "name" "\x7b\x7bproject\x7b\x7bprojectNamePascal\x7d\x7d\x7d\x7d" := by
  constructor
  · decide
  · decide

/-- Claim C4 (amended): for every project name matching `^[a-z0-9-]+$` and
every content string whose once-substituted form contains no further
occurrence of either token, re-applying the substitution is a no-op. -/
theorem claim4_substitution_idempotent (pn c : String)
    (h1 : matchesNamePattern pn = true)
    (h2 : tokenFree (substitute pn c) = true) :
    substitute pn (substitute pn c) = substitute pn c := by
  have hh : containsPat nameToken.data (substitute pn c).data = false
      ∧ containsPat pascalToken.data (substitute pn c).data = false := by
    simpa [tokenFree] using h2
  calc substitute pn (substitute pn c)
      = strReplace (strReplace (substitute pn c) nameToken pn) pascalToken (toPascalCase pn) := rfl
    _ = strReplace (substitute pn c) pascalToken (toPascalCase pn) := by
          rw [strReplace_id_of_not_contains _ _ _ hh.1]
    _ = substitute pn c := strReplace_id_of_not_contains _ _ _ hh.2

theorem claim4_witness :
    matchesNamePattern "my-app" = true
      ∧ tokenFree (substitute "my-app" "hello \x7b\x7bprojectName\x7d\x7d") = true
      ∧ substitute "my-app" (substitute "my-app" "hello \x7b\x7bprojectName\x7d\x7d")
          = substitute "my-app" "hello \x7b\x7bprojectName\x7d\x7d" :=
  ⟨by decide, by decide,
   claim4_substitution_idempotent "my-app" "hello \x7b\x7bprojectName\x7d\x7d"
     (by decide) (by decide)⟩

/-- Claim C6: every candidate project name that does not match
`^[a-z0-9-]+$` is rejected by the validator with an error message, the
pipeline aborts (exit code 1) without touching the target directory when
such a name is the prompt input, and in particular `"my app"` is rejected
with the documented message. -/
theorem claim6_invalid_name_rejected :
    (∀ name : String, matchesNamePattern name = false →
        ∃ msg, validateProjectName name = some msg)
      ∧ (∀ (name : String) (env : OrchEnv) (sess : SessionInputs)
            (target tmpl : Option (List FSEntry)) (sub : SubprocResults),
          matchesNamePattern name = false → sess.projectNameInput = some name →
            (mainRun env sess target tmpl sub).targetAfter = target
              ∧ (mainRun env sess target tmpl sub).exitCode = 1)
      ∧ validateProjectName "my app"
          = some "Project name can only contain lowercase letters, numbers, and hyphens" := by
  refine ⟨validateProjectName_some_of_not_matches, ?_, by decide⟩
  intro name env sess target tmpl sub h hin
  obtain ⟨msg, hv⟩ := validateProjectName_some_of_not_matches name h
  have hres : resolveProjectName sess = none := by
    simp [resolveProjectName, hin, hv]
  cases hp : (mainPrereq env).result with
  | none => simp [mainRun, hp]
  | some muvu => simp [mainRun, hp, hres]

theorem claim6_witness :
    matchesNamePattern "my app" = false
      ∧ (mainRun envReady ⟨some "my app", some "a todo app", false, none, none, false⟩
            (some []) (some tmplDemo) subAllOk).targetAfter = some []
      ∧ (mainRun envReady ⟨some "my app", some "a todo app", false, none, none, false⟩
            (some []) (some tmplDemo) subAllOk).exitCode = 1 := by
  refine ⟨by decide, ?_, ?_⟩
  · exact ((claim6_invalid_name_rejected.2.1 "my app" envReady _ _ _ subAllOk)
      (by decide) rfl).1
  · exact ((claim6_invalid_name_rejected.2.1 "my app" envReady _ _ _ subAllOk)
      (by decide) rfl).2

/-- Claim C10 (counterexample): the claim asserts `copyDir` raises no
error for every destination collision and the later entry silently
overwrites, but a mixed collision between a file and a directory throws a
filesystem error instead: a directory `x` enumerated before a file `x.hbs`
makes the file write fail with `EISDIR`, and in the opposite order the
recursive `mkdirSync` fails with `EEXIST`. -/
theorem claim10_cex :
    (copyDir "demo" [FSEntry.dir "x" [], FSEntry.file "x.hbs" "T"]).2
        = some (CopyError.fileOverDir "x")
      ∧ (copyDir "demo" [FSEntry.file "x.hbs" "T", FSEntry.dir "x" []]).2
        = some (CopyError.dirOverFile "x") := by
  decide

/-- Claim C10 (amended): for file-file destination collisions `copyDir`
raises no error and the entry processed later in enumeration order
silently overwrites the output of the earlier one: whenever the earlier
entries copied without error and the destination of a later non-excluded
file entry is not currently held by a directory, the copy succeeds and the
destination holds exactly the later file's output — as on the collision
examples `gitignore`/`.gitignore` and `x.hbs`/`x`.  Mixed file/directory
collisions instead raise a filesystem error (see the counterexample). -/
theorem claim10_file_collision_overwrites :
    (∀ (pn : String) (es : List FSEntry) (n c : String),
        (copyDir pn es).2 = none →
        excludedNames.contains n = false →
        isDirAt (copyDestName n) (copyDir pn es).1 = false →
          copyDir pn (es ++ [FSEntry.file n c])
              = (insertEntry (copyDir pn es).1
                  (FSEntry.file (copyDestName n) (if isHbs n then substitute pn c else c)),
                 none)
            ∧ findByName (copyDestName n) (copyDir pn (es ++ [FSEntry.file n c])).1
                = some (FSEntry.file (copyDestName n)
                    (if isHbs n then substitute pn c else c)))
      ∧ copyDir "demo" [FSEntry.file "gitignore" "A", FSEntry.file ".gitignore" "B"]
          = ([FSEntry.file ".gitignore" "B"], none)
      ∧ copyDir "demo" [FSEntry.file "x.hbs" "X", FSEntry.file "x" "Y"]
          = ([FSEntry.file "x" "Y"], none) := by
  refine ⟨?_, by decide, by decide⟩
  intro pn es n c herr hnex hnd
  unfold copyDir at herr hnd ⊢
  rw [copyListInto_append pn es [FSEntry.file n c] [] herr]
  have hstep : copyListInto pn (copyListInto pn [] es).1 [FSEntry.file n c]
      = (insertEntry (copyListInto pn [] es).1
          (FSEntry.file (copyDestName n) (if isHbs n then substitute pn c else c)), none) := by
    unfold isDirAt at hnd
    simp only [copyListInto, FSEntry.name, hnex, Bool.false_eq_true, if_false]
    unfold copyOneInto
    cases hf : findByName (copyDestName n) (copyListInto pn [] es).1 with
    | none => simp [hf, copyListInto]
    | some ent =>
        cases ent with
        | file n2 c2 => simp [hf, copyListInto]
        | dir n2 sub =>
            rw [hf] at hnd
            simp at hnd
  rw [hstep]
  refine ⟨rfl, ?_⟩
  have hfi := findByName_insertEntry (copyListInto pn [] es).1
    (FSEntry.file (copyDestName n) (if isHbs n then substitute pn c else c))
  simpa [FSEntry.name] using hfi

theorem claim10_witness :
    (copyDir "p" [FSEntry.file "z.hbs" "q"]).2 = none
      ∧ findByName "z" (copyDir "p" ([FSEntry.file "z.hbs" "q"] ++ [FSEntry.file "z" "2"])).1
          = some (FSEntry.file "z" "2") := by
  refine ⟨by decide, ?_⟩
  exact (claim10_file_collision_overwrites.1 "p" [FSEntry.file "z.hbs" "q"] "z" "2"
    (by decide) (by decide) (by decide)).2

theorem mirrorEntry_destOf (pn : String) (e e2 : FSEntry)
    (h : mirrorEntry pn e = some e2) : destOf e = some e2.name := by
  cases e with
  | file n c =>
      by_cases hex : n ∈ excludedNames
      · simp [mirrorEntry, hex] at h
      · simp only [mirrorEntry] at h
        simp only [destOf]
        rw [if_neg (by simpa using hex)] at h
        rw [if_neg (by simpa using hex)]
        simp only [Option.some.injEq] at h ⊢
        rw [← h]
        rfl
  | dir n es =>
      by_cases hex : n ∈ excludedNames
      · simp [mirrorEntry, hex] at h
      · simp only [mirrorEntry] at h
        simp only [destOf]
        rw [if_neg (by simpa using hex)] at h
        rw [if_neg (by simpa using hex)]
        simp only [Option.some.injEq] at h ⊢
        rw [← h]
        rfl

theorem mirrorEntry_of_excluded (pn : String) (e : FSEntry)
    (h : excludedNames.contains e.name = true) : mirrorEntry pn e = none := by
  cases e with
  | file n c =>
      have hem : n ∈ excludedNames := by simpa [FSEntry.name] using h
      simp [mirrorEntry, hem]
  | dir n es =>
      have hem : n ∈ excludedNames := by simpa [FSEntry.name] using h
      simp [mirrorEntry, hem]

theorem mirrorEntry_of_not_excluded (pn : String) (e : FSEntry)
    (h : excludedNames.contains e.name = false) :
    ∃ img, mirrorEntry pn e = some img := by
  cases e with
  | file n c =>
      have hem : n ∉ excludedNames := by simpa [FSEntry.name] using h
      exact ⟨FSEntry.file (copyDestName n) (if isHbs n then substitute pn c else c),
        by simp [mirrorEntry, hem]⟩
  | dir n es =>
      have hem : n ∉ excludedNames := by simpa [FSEntry.name] using h
      exact ⟨FSEntry.dir n (mirrorDir pn es), by simp [mirrorEntry, hem]⟩

theorem insertEntry_fresh (acc : List FSEntry) (e : FSEntry)
    (h : ∀ x ∈ acc, x.name ≠ e.name) : insertEntry acc e = acc ++ [e] := by
  unfold insertEntry
  rw [List.filter_eq_self.mpr]
  intro x hx
  simpa using h x hx

theorem findByName_eq_none (n : String) (l : List FSEntry)
    (h : ∀ x ∈ l, x.name ≠ n) : findByName n l = none := by
  unfold findByName
  rw [List.find?_eq_none]
  intro x hx
  simpa using h x hx

mutual

theorem copyOneInto_eq_mirror (pn : String) (acc : List FSEntry) (e img : FSEntry)
    (hnc : noCollideEntry e = true)
    (himg : mirrorEntry pn e = some img)
    (hfresh : ∀ x ∈ acc, x.name ≠ img.name) :
    copyOneInto pn acc e = (acc ++ [img], none) := by
  cases e with
  | file n c =>
      by_cases hex : n ∈ excludedNames
      · simp [mirrorEntry, hex] at himg
      · simp only [mirrorEntry] at himg
        rw [if_neg (by simpa using hex)] at himg
        simp only [Option.some.injEq] at himg
        subst himg
        have hfd : findByName (copyDestName n) acc = none :=
          findByName_eq_none _ _ (fun x hx => by simpa [FSEntry.name] using hfresh x hx)
        have hins := insertEntry_fresh acc
          (FSEntry.file (copyDestName n) (if isHbs n then substitute pn c else c))
          (fun x hx => by simpa [FSEntry.name] using hfresh x hx)
        simp [copyOneInto, hfd, hins]
  | dir n es =>
      by_cases hex : n ∈ excludedNames
      · simp [mirrorEntry, hex] at himg
      · simp only [mirrorEntry] at himg
        rw [if_neg (by simpa using hex)] at himg
        simp only [Option.some.injEq] at himg
        subst himg
        have hh : distinctB (destsOf es) = true ∧ noCollideList es = true := by
          simpa [noCollideEntry] using hnc
        have hrec := copyListInto_eq_mirror pn es [] hh.1 hh.2 (by intro d _ x hx; simp at hx)
        have hfd : findByName n acc = none :=
          findByName_eq_none _ _ (fun x hx => by simpa [FSEntry.name] using hfresh x hx)
        have hins := insertEntry_fresh acc (FSEntry.dir n (mirrorDir pn es))
          (fun x hx => by simpa [FSEntry.name] using hfresh x hx)
        simp [copyOneInto, hfd, hrec, hins]

theorem copyListInto_eq_mirror (pn : String) (es acc : List FSEntry)
    (h1 : distinctB (destsOf es) = true) (h2 : noCollideList es = true)
    (h3 : ∀ d ∈ destsOf es, ∀ x ∈ acc, x.name ≠ d) :
    copyListInto pn acc es = (acc ++ mirrorDir pn es, none) := by
  cases es with
  | nil => simp [copyListInto, mirrorDir]
  | cons e rest =>
      have hnce : noCollideEntry e = true ∧ noCollideList rest = true := by
        simpa [noCollideList] using h2
      by_cases hex : excludedNames.contains e.name = true
      · have hme := mirrorEntry_of_excluded pn e hex
        have hdest : destOf e = none := by
          cases e with
          | file n c =>
              have hem : n ∈ excludedNames := by simpa [FSEntry.name] using hex
              simp [destOf, hem]
          | dir n es2 =>
              have hem : n ∈ excludedNames := by simpa [FSEntry.name] using hex
              simp [destOf, hem]
        have hdests : destsOf (e :: rest) = destsOf rest := by
          simp [destsOf, List.filterMap_cons, hdest]
        rw [hdests] at h1 h3
        simp only [copyListInto, hex, if_true, mirrorDir, hme]
        exact copyListInto_eq_mirror pn rest acc h1 hnce.2 h3
      · have hexf : excludedNames.contains e.name = false := by simpa using hex
        obtain ⟨img, himg⟩ := mirrorEntry_of_not_excluded pn e hexf
        have hdest : destOf e = some img.name := mirrorEntry_destOf pn e img himg
        have hdests : destsOf (e :: rest) = img.name :: destsOf rest := by
          simp [destsOf, List.filterMap_cons, hdest]
        rw [hdests] at h1 h3
        have hd1 : ((destsOf rest).contains img.name) = false
            ∧ distinctB (destsOf rest) = true := by
          simpa [distinctB] using h1
        have hnotmem : img.name ∉ destsOf rest := by simpa using hd1.1
        have hfresh : ∀ x ∈ acc, x.name ≠ img.name :=
          h3 img.name (List.mem_cons_self _ _)
        have hone := copyOneInto_eq_mirror pn acc e img hnce.1 himg hfresh
        have h3' : ∀ d ∈ destsOf rest, ∀ x ∈ acc ++ [img], x.name ≠ d := by
          intro d hd x hx
          rcases List.mem_append.mp hx with hxa | hxe
          · exact h3 d (List.mem_cons_of_mem _ hd) x hxa
          · have hx2 : x = img := by simpa using hxe
            subst hx2
            intro hcontra
            exact hnotmem (hcontra ▸ hd)
        have hrest := copyListInto_eq_mirror pn rest (acc ++ [img]) hd1.2 hnce.2 h3'
        simp only [copyListInto, hexf, Bool.false_eq_true, if_false, hone, hrest,
          mirrorDir, himg]
        simp [List.append_assoc]

end

/-- Claim C3 (counterexample): the claim quantifies over every template
tree, but when two source entries map to the same destination name the
output is not a structural mirror: with template
`[gitignore ↦ "A", .gitignore ↦ "B"]` and project name `demo` the
translated image of the reserved-name file (`.gitignore` with content "A")
is absent from the output — the later entry overwrote it. -/
theorem claim3_cex :
    matchesNamePattern "demo" = true
      ∧ (copyDir "demo" [FSEntry.file "gitignore" "A", FSEntry.file ".gitignore" "B"]).1
          ≠ mirrorDir "demo" [FSEntry.file "gitignore" "A", FSEntry.file ".gitignore" "B"]
      ∧ FSEntry.file ".gitignore" "A"
          ∉ (copyDir "demo" [FSEntry.file "gitignore" "A", FSEntry.file ".gitignore" "B"]).1 := by
  decide

/-- Claim C3 (amended): for every projectName matching `^[a-z0-9-]+$` and
every template tree in which no two entries of any directory map to the
same destination name, the materialized output is exactly the structural
mirror of the template, with no filesystem error (hard-excluded subtrees
pruned, reserved names translated by the fixed table, substitution-marker
extensions stripped); moreover, unconditionally, a `gitignore` file lands
as `.gitignore` with its content untouched, every entry named in the
hard-exclude set is skipped by the copy loop, and every `.hbs` file lands
at its stripped destination name with token-substituted content. -/
theorem claim3_structural_mirror (pn : String) (t : List FSEntry)
    (h1 : matchesNamePattern pn = true) (h2 : noCollideTop t = true) :
    copyDir pn t = (mirrorDir pn t, none)
      ∧ (∀ c, copyOneInto pn [] (FSEntry.file "gitignore" c)
          = ([FSEntry.file ".gitignore" c], none))
      ∧ (∀ (e : FSEntry) (acc rest : List FSEntry), excludedNames.contains e.name = true →
          copyListInto pn acc (e :: rest) = copyListInto pn acc rest)
      ∧ (∀ n c, isHbs n = true →
          copyOneInto pn [] (FSEntry.file n c)
            = ([FSEntry.file (copyDestName n) (substitute pn c)], none)) := by
  have hh : distinctB (destsOf t) = true ∧ noCollideList t = true := by
    simpa [noCollideTop] using h2
  refine ⟨?_, ?_, ?_, ?_⟩
  · unfold copyDir
    have hrec := copyListInto_eq_mirror pn t [] hh.1 hh.2 (by intro d _ x hx; simp at hx)
    simpa using hrec
  · intro c
    rfl
  · intro e acc rest he
    have hem : e.name ∈ excludedNames := by simpa using he
    simp [copyListInto, hem]
  · intro n c hhbs
    simp [copyOneInto, findByName, insertEntry, hhbs]

theorem claim3_witness :
    matchesNamePattern "my-app" = true
      ∧ noCollideTop tmplDemo = true
      ∧ copyDir "my-app" tmplDemo = (mirrorDir "my-app" tmplDemo, none) :=
  ⟨by decide, by decide,
   (claim3_structural_mirror "my-app" tmplDemo (by decide) (by decide)).1⟩

theorem ensureClaudeCode_ready (env : OrchEnv) (h : claudeReady env = true) :
    ensureClaudeCode env
      = (true, [Cmd.claudeVersion, Cmd.claudeVersion], ["  ✔ Claude Code authenticated"]) := by
  have hh : env.claudeVersionOk = true ∧ env.claudeOutputHasClaudeCode = true := by
    simpa [claudeReady] using h
  simp [ensureClaudeCode, hh.1, hh.2]

theorem ensureModal_ready (env : OrchEnv) (mu : String)
    (hi : env.modalInstalled = true) (hu : env.modalUserBefore = some mu) :
    ensureModal env = (some mu, [Cmd.modalVersion, Cmd.modalProfileCurrent], []) := by
  simp [ensureModal, ensureModalLogin, hi, hu]

theorem ensureVercel_ready (env : OrchEnv) (vu : String)
    (hi : env.vercelInstalled = true) (hu : env.vercelUserBefore = some vu) :
    ensureVercel env = (some vu, [Cmd.vercelVersion, Cmd.vercelWhoami], []) := by
  simp [ensureVercel, ensureVercelLogin, hi, hu]

theorem ensureModal_declined_install (env : OrchEnv) (h : modalDeclinedInstall env = true) :
    ensureModal env = (none, [Cmd.modalVersion],
      ["  ⚠ Modal CLI not found", "", "", "  Modal is required for the backend.",
       "  Install manually: uv tool install modal"]) := by
  have hh : env.modalInstalled = false ∧ env.modalInstallAccepted = false := by
    simpa [modalDeclinedInstall] using h
  simp [ensureModal, hh.1, hh.2]

theorem ensureModal_install_failed (env : OrchEnv) (h : modalInstallFailed env = true) :
    ensureModal env = (none, [Cmd.modalVersion, Cmd.uvToolInstallModal],
      ["  ⚠ Modal CLI not found", "", "", "  Installing Modal CLI...",
       "  ✖ Failed to install Modal CLI", "    Try manually: uv tool install modal"]) := by
  obtain ⟨hi, ha, ho⟩ : env.modalInstalled = false ∧ env.modalInstallAccepted = true
      ∧ env.modalInstallOk = false := by
    simpa [modalInstallFailed, and_assoc] using h
  simp [ensureModal, installModal, hi, ha, ho]

theorem ensureModal_declined_login (env : OrchEnv) (h : modalDeclinedLogin env = true) :
    (ensureModal env).1 = none
      ∧ "  Log in manually: modal setup" ∈ (ensureModal env).2.2 := by
  obtain ⟨hp, hu', hl⟩ : modalInstallPhaseOk env = true ∧ env.modalUserBefore = none
      ∧ env.modalLoginAccepted = false := by
    simpa [modalDeclinedLogin, and_assoc] using h
  cases hi : env.modalInstalled with
  | true => simp [ensureModal, ensureModalLogin, hi, hu', hl]
  | false =>
      obtain ⟨ha, ho⟩ : env.modalInstallAccepted = true ∧ env.modalInstallOk = true := by
        simpa [modalInstallPhaseOk, hi] using hp
      simp [ensureModal, ensureModalLogin, installModal, hi, ha, ho, hu', hl]

theorem ensureModal_auth_failed (env : OrchEnv) (h : modalAuthFailed env = true) :
    (ensureModal env).1 = none := by
  obtain ⟨hp, hu, hl, hf⟩ : modalInstallPhaseOk env = true ∧ env.modalUserBefore.isNone = true
      ∧ env.modalLoginAccepted = true
      ∧ (!env.modalSetupOk || env.modalUserAfter.isNone) = true := by
    simpa [modalAuthFailed, and_assoc] using h
  have hu' : env.modalUserBefore = none := Option.isNone_iff_eq_none.mp hu
  cases hi : env.modalInstalled with
  | true =>
      cases hso : env.modalSetupOk with
      | false => simp [ensureModal, ensureModalLogin, loginModal, hi, hu', hl, hso]
      | true =>
          have hua : env.modalUserAfter = none := by
            rw [hso] at hf
            exact Option.isNone_iff_eq_none.mp (by simpa using hf)
          simp [ensureModal, ensureModalLogin, loginModal, hi, hu', hl, hso, hua]
  | false =>
      obtain ⟨ha, ho⟩ : env.modalInstallAccepted = true ∧ env.modalInstallOk = true := by
        simpa [modalInstallPhaseOk, hi] using hp
      cases hso : env.modalSetupOk with
      | false => simp [ensureModal, ensureModalLogin, installModal, loginModal, hi, ha, ho, hu', hl, hso]
      | true =>
          have hua : env.modalUserAfter = none := by
            rw [hso] at hf
            exact Option.isNone_iff_eq_none.mp (by simpa using hf)
          simp [ensureModal, ensureModalLogin, installModal, loginModal, hi, ha, ho, hu', hl, hso, hua]

theorem ensureModal_none_of_fail (env : OrchEnv) (h : modalFailCond env = true) :
    (ensureModal env).1 = none := by
  have hcases : modalDeclinedInstall env = true ∨ modalInstallFailed env = true
      ∨ modalDeclinedLogin env = true ∨ modalAuthFailed env = true := by
    simpa [modalFailCond, or_assoc] using h
  rcases hcases with h1 | h2 | h3 | h4
  · rw [ensureModal_declined_install env h1]
  · rw [ensureModal_install_failed env h2]
  · exact (ensureModal_declined_login env h3).1
  · exact ensureModal_auth_failed env h4

theorem ensureVercel_declined_install (env : OrchEnv) (h : vercelDeclinedInstall env = true) :
    ensureVercel env = (none, [Cmd.vercelVersion],
      ["  ⚠ Vercel CLI not found", "", "", "  Vercel is required for frontend deployment.",
       "  Install manually: npm install -g vercel"]) := by
  have hh : env.vercelInstalled = false ∧ env.vercelInstallAccepted = false := by
    simpa [vercelDeclinedInstall] using h
  simp [ensureVercel, hh.1, hh.2]

theorem ensureVercel_install_failed (env : OrchEnv) (h : vercelInstallFailed env = true) :
    ensureVercel env = (none, [Cmd.vercelVersion, Cmd.npmInstallGVercel],
      ["  ⚠ Vercel CLI not found", "", "", "  Installing Vercel CLI...",
       "  ✖ Failed to install Vercel CLI", "    Try manually: npm install -g vercel"]) := by
  obtain ⟨hi, ha, ho⟩ : env.vercelInstalled = false ∧ env.vercelInstallAccepted = true
      ∧ env.vercelInstallOk = false := by
    simpa [vercelInstallFailed, and_assoc] using h
  simp [ensureVercel, installVercel, hi, ha, ho]

theorem ensureVercel_declined_login (env : OrchEnv) (h : vercelDeclinedLogin env = true) :
    (ensureVercel env).1 = none
      ∧ "  Log in manually: vercel login" ∈ (ensureVercel env).2.2 := by
  obtain ⟨hp, hu', hl⟩ : vercelInstallPhaseOk env = true ∧ env.vercelUserBefore = none
      ∧ env.vercelLoginAccepted = false := by
    simpa [vercelDeclinedLogin, and_assoc] using h
  cases hi : env.vercelInstalled with
  | true => simp [ensureVercel, ensureVercelLogin, hi, hu', hl]
  | false =>
      obtain ⟨ha, ho⟩ : env.vercelInstallAccepted = true ∧ env.vercelInstallOk = true := by
        simpa [vercelInstallPhaseOk, hi] using hp
      simp [ensureVercel, ensureVercelLogin, installVercel, hi, ha, ho, hu', hl]

theorem ensureVercel_auth_failed (env : OrchEnv) (h : vercelAuthFailed env = true) :
    (ensureVercel env).1 = none := by
  obtain ⟨hp, hu, hl, hf⟩ : vercelInstallPhaseOk env = true ∧ env.vercelUserBefore.isNone = true
      ∧ env.vercelLoginAccepted = true
      ∧ (!env.vercelLoginCmdOk || env.vercelUserAfter.isNone) = true := by
    simpa [vercelAuthFailed, and_assoc] using h
  have hu' : env.vercelUserBefore = none := Option.isNone_iff_eq_none.mp hu
  cases hi : env.vercelInstalled with
  | true =>
      cases hso : env.vercelLoginCmdOk with
      | false => simp [ensureVercel, ensureVercelLogin, loginVercel, hi, hu', hl, hso]
      | true =>
          have hua : env.vercelUserAfter = none := by
            rw [hso] at hf
            exact Option.isNone_iff_eq_none.mp (by simpa using hf)
          simp [ensureVercel, ensureVercelLogin, loginVercel, hi, hu', hl, hso, hua]
  | false =>
      obtain ⟨ha, ho⟩ : env.vercelInstallAccepted = true ∧ env.vercelInstallOk = true := by
        simpa [vercelInstallPhaseOk, hi] using hp
      cases hso : env.vercelLoginCmdOk with
      | false =>
          simp [ensureVercel, ensureVercelLogin, installVercel, loginVercel, hi, ha, ho, hu', hl, hso]
      | true =>
          have hua : env.vercelUserAfter = none := by
            rw [hso] at hf
            exact Option.isNone_iff_eq_none.mp (by simpa using hf)
          simp [ensureVercel, ensureVercelLogin, installVercel, loginVercel, hi, ha, ho, hu', hl, hso, hua]

theorem ensureVercel_none_of_fail (env : OrchEnv) (h : vercelFailCond env = true) :
    (ensureVercel env).1 = none := by
  have hcases : vercelDeclinedInstall env = true ∨ vercelInstallFailed env = true
      ∨ vercelDeclinedLogin env = true ∨ vercelAuthFailed env = true := by
    simpa [vercelFailCond, or_assoc] using h
  rcases hcases with h1 | h2 | h3 | h4
  · rw [ensureVercel_declined_install env h1]
  · rw [ensureVercel_install_failed env h2]
  · exact (ensureVercel_declined_login env h3).1
  · exact ensureVercel_auth_failed env h4

theorem ensureModal_trace_counts (env : OrchEnv) :
    (ensureModal env).2.1.count Cmd.uvToolInstallModal ≤ 1
      ∧ (ensureModal env).2.1.count Cmd.modalSetup ≤ 1
      ∧ (ensureModal env).2.1.count Cmd.npmInstallGVercel = 0
      ∧ (ensureModal env).2.1.count Cmd.vercelLogin = 0 := by
  obtain ⟨a1, a2, mi, mub, mia, mio, mla, mso, mua, vi, vub, vina, vio, vla, vlo, vua⟩ := env
  cases mi <;> cases mia <;> cases mio <;> cases mub <;> cases mla <;> cases mso <;> cases mua <;>
      simp [ensureModal, ensureModalLogin, installModal, loginModal]

theorem ensureVercel_trace_counts (env : OrchEnv) :
    (ensureVercel env).2.1.count Cmd.npmInstallGVercel ≤ 1
      ∧ (ensureVercel env).2.1.count Cmd.vercelLogin ≤ 1
      ∧ (ensureVercel env).2.1.count Cmd.uvToolInstallModal = 0
      ∧ (ensureVercel env).2.1.count Cmd.modalSetup = 0 := by
  obtain ⟨a1, a2, mi, mub, mia, mio, mla, mso, mua, vi, vub, vina, vio, vla, vlo, vua⟩ := env
  cases vi <;> cases vina <;> cases vio <;> cases vub <;> cases vla <;> cases vlo <;> cases vua <;>
      simp [ensureVercel, ensureVercelLogin, installVercel, loginVercel]

theorem mainPrereq_modal_abort (env : OrchEnv) (tr : List Cmd) (out : List String)
    (hc : claudeReady env = true) (hm : ensureModal env = (none, tr, out)) :
    mainPrereq env = ⟨none, [Cmd.claudeVersion, Cmd.claudeVersion] ++ tr,
      [bannerText, "  Checking prerequisites...", "", "  ✔ Claude Code authenticated"]
        ++ out ++ ["\nModal setup required. Exiting."]⟩ := by
  simp [mainPrereq, ensureClaudeCode_ready env hc, hm]

theorem mainPrereq_vercel_abort (env : OrchEnv) (mu : String)
    (trM : List Cmd) (outM : List String) (trV : List Cmd) (outV : List String)
    (hc : claudeReady env = true) (hm : ensureModal env = (some mu, trM, outM))
    (hv : ensureVercel env = (none, trV, outV)) :
    mainPrereq env = ⟨none, [Cmd.claudeVersion, Cmd.claudeVersion] ++ trM ++ trV,
      [bannerText, "  Checking prerequisites...", "", "  ✔ Claude Code authenticated"]
        ++ outM ++ ["  ✔ Modal authenticated (" ++ mu ++ ")"] ++ outV
        ++ ["\nVercel setup required. Exiting."]⟩ := by
  simp [mainPrereq, ensureClaudeCode_ready env hc, hm, hv]

theorem mainRun_prereq_abort (env : OrchEnv) (sess : SessionInputs)
    (target tmpl : Option (List FSEntry)) (sub : SubprocResults)
    (h : (mainPrereq env).result = none) :
    mainRun env sess target tmpl sub
      = ⟨target, 1, (mainPrereq env).trace, (mainPrereq env).outputs⟩ := by
  simp [mainRun, h]

theorem anyContains_of_mem (outs : List String) (s needle : String)
    (hs : s ∈ outs) (hc : containsSub needle s = true) : anyContains outs needle = true := by
  simp only [anyContains, List.any_eq_true]
  exact ⟨s, hs, hc⟩

theorem mainPrereq_success_trace (env : OrchEnv) (mu vu : String)
    (trM : List Cmd) (outM : List String) (trV : List Cmd) (outV : List String)
    (hc : claudeReady env = true) (hm : ensureModal env = (some mu, trM, outM))
    (hv : ensureVercel env = (some vu, trV, outV)) :
    (mainPrereq env).trace = [Cmd.claudeVersion, Cmd.claudeVersion] ++ trM ++ trV := by
  simp [mainPrereq, ensureClaudeCode_ready env hc, hm, hv]

theorem mainPrereq_trace_counts (env : OrchEnv) (hc : claudeReady env = true) :
    (mainPrereq env).trace.count Cmd.uvToolInstallModal ≤ 1
      ∧ (mainPrereq env).trace.count Cmd.modalSetup ≤ 1
      ∧ (mainPrereq env).trace.count Cmd.npmInstallGVercel ≤ 1
      ∧ (mainPrereq env).trace.count Cmd.vercelLogin ≤ 1 := by
  have hMc := ensureModal_trace_counts env
  have hVc := ensureVercel_trace_counts env
  have e1 : ([Cmd.claudeVersion, Cmd.claudeVersion] : List Cmd).count Cmd.uvToolInstallModal = 0 := by
    decide
  have e2 : ([Cmd.claudeVersion, Cmd.claudeVersion] : List Cmd).count Cmd.modalSetup = 0 := by
    decide
  have e3 : ([Cmd.claudeVersion, Cmd.claudeVersion] : List Cmd).count Cmd.npmInstallGVercel = 0 := by
    decide
  have e4 : ([Cmd.claudeVersion, Cmd.claudeVersion] : List Cmd).count Cmd.vercelLogin = 0 := by
    decide
  rcases hEM : ensureModal env with ⟨r, trM, outM⟩
  rw [hEM] at hMc
  simp only at hMc
  cases r with
  | none =>
      rw [mainPrereq_modal_abort env trM outM hc hEM]
      simp only [List.count_append, e1, e2, e3, e4]
      omega
  | some mu =>
      rcases hEV : ensureVercel env with ⟨rv, trV, outV⟩
      rw [hEV] at hVc
      simp only at hVc
      cases rv with
      | none =>
          rw [mainPrereq_vercel_abort env mu trM outM trV outV hc hEM hEV]
          simp only [List.count_append, e1, e2, e3, e4]
          omega
      | some vu =>
          have ht := mainPrereq_success_trace env mu vu trM outM trV outV hc hEM hEV
          rw [ht]
          simp only [List.count_append, e1, e2, e3, e4]
          omega

set_option maxRecDepth 8192 in
/-- Claim C8 (counterexample): when the `modal setup` authentication
command fails, the pipeline does abort with a non-zero exit and no target
mutation, but no printed line names the manual command to run — the
`modal setup` remediation hint is only printed when the login prompt is
declined, not when the login command fails. -/
theorem claim8_cex :
    modalAuthFailed envModalSetupFails = true
      ∧ (mainRun envModalSetupFails sessDemo (some []) (some tmplDemo) subAllOk).exitCode = 1
      ∧ (mainRun envModalSetupFails sessDemo (some []) (some tmplDemo) subAllOk).targetAfter
          = some []
      ∧ anyContains (mainRun envModalSetupFails sessDemo (some []) (some tmplDemo) subAllOk).outputs
          "modal setup" = false := by
  decide

/-- Claim C8 (amended): whenever a tool's install or authentication prompt
is declined or its install or authentication command fails, the pipeline
aborts before any generation step — exit code 1, the target directory
untouched, and no install or login command issued more than once in the
run; a remediation hint naming the specific manual command is printed when
a prompt was declined or an install command failed, while a failed
authentication command aborts with only a failure message. -/
theorem claim8_decline_or_failure_aborts
    (env : OrchEnv) (sess : SessionInputs) (target tmpl : Option (List FSEntry))
    (sub : SubprocResults)
    (hc : claudeReady env = true)
    (hfail : modalFailCond env = true
      ∨ ((ensureModal env).1.isSome = true ∧ vercelFailCond env = true)) :
    (mainRun env sess target tmpl sub).exitCode = 1
      ∧ (mainRun env sess target tmpl sub).targetAfter = target
      ∧ (mainRun env sess target tmpl sub).trace.count Cmd.uvToolInstallModal ≤ 1
      ∧ (mainRun env sess target tmpl sub).trace.count Cmd.modalSetup ≤ 1
      ∧ (mainRun env sess target tmpl sub).trace.count Cmd.npmInstallGVercel ≤ 1
      ∧ (mainRun env sess target tmpl sub).trace.count Cmd.vercelLogin ≤ 1
      ∧ (modalDeclinedInstall env = true ∨ modalInstallFailed env = true →
          anyContains (mainRun env sess target tmpl sub).outputs "uv tool install modal" = true)
      ∧ (modalDeclinedLogin env = true →
          anyContains (mainRun env sess target tmpl sub).outputs "modal setup" = true)
      ∧ ((ensureModal env).1.isSome = true →
          (vercelDeclinedInstall env = true ∨ vercelInstallFailed env = true →
            anyContains (mainRun env sess target tmpl sub).outputs "npm install -g vercel" = true)
          ∧ (vercelDeclinedLogin env = true →
            anyContains (mainRun env sess target tmpl sub).outputs "vercel login" = true)) := by
  have habort : (mainPrereq env).result = none := by
    rcases hfail with hm | ⟨hs, hv⟩
    · have h0 := ensureModal_none_of_fail env hm
      rcases hEM : ensureModal env with ⟨r, trM, outM⟩
      rw [hEM] at h0
      simp only at h0
      subst h0
      rw [mainPrereq_modal_abort env trM outM hc hEM]
    · have h0 := ensureVercel_none_of_fail env hv
      rcases hEM : ensureModal env with ⟨r, trM, outM⟩
      rw [hEM] at hs
      cases r with
      | none => simp at hs
      | some mu =>
          rcases hEV : ensureVercel env with ⟨rv, trV, outV⟩
          rw [hEV] at h0
          simp only at h0
          subst h0
          rw [mainPrereq_vercel_abort env mu trM outM trV outV hc hEM hEV]
  have hrun := mainRun_prereq_abort env sess target tmpl sub habort
  rw [hrun]
  have hcounts := mainPrereq_trace_counts env hc
  refine ⟨rfl, rfl, hcounts.1, hcounts.2.1, hcounts.2.2.1, hcounts.2.2.2, ?_, ?_, ?_⟩
  · intro hcase
    rcases hcase with h1 | h2
    · rw [mainPrereq_modal_abort env _ _ hc (ensureModal_declined_install env h1)]
      exact anyContains_of_mem _ "  Install manually: uv tool install modal" _
        (by simp) (by decide)
    · rw [mainPrereq_modal_abort env _ _ hc (ensureModal_install_failed env h2)]
      exact anyContains_of_mem _ "    Try manually: uv tool install modal" _
        (by simp) (by decide)
  · intro h3
    obtain ⟨hn, hmem⟩ := ensureModal_declined_login env h3
    rcases hEM : ensureModal env with ⟨r, trM, outM⟩
    rw [hEM] at hn hmem
    simp only at hn hmem
    subst hn
    rw [mainPrereq_modal_abort env trM outM hc hEM]
    exact anyContains_of_mem _ "  Log in manually: modal setup" _
      (by simp [hmem]) (by decide)
  · intro hs
    rcases hEM : ensureModal env with ⟨r, trM, outM⟩
    rw [hEM] at hs
    cases r with
    | none => simp at hs
    | some mu =>
        constructor
        · intro hcase
          rcases hcase with h1 | h2
          · rw [mainPrereq_vercel_abort env mu trM outM _ _ hc hEM
              (ensureVercel_declined_install env h1)]
            exact anyContains_of_mem _ "  Install manually: npm install -g vercel" _
              (by simp) (by decide)
          · rw [mainPrereq_vercel_abort env mu trM outM _ _ hc hEM
              (ensureVercel_install_failed env h2)]
            exact anyContains_of_mem _ "    Try manually: npm install -g vercel" _
              (by simp) (by decide)
        · intro h3
          obtain ⟨hn, hmem⟩ := ensureVercel_declined_login env h3
          rcases hEV : ensureVercel env with ⟨rv, trV, outV⟩
          rw [hEV] at hn hmem
          simp only at hn hmem
          subst hn
          rw [mainPrereq_vercel_abort env mu trM outM trV outV hc hEM hEV]
          exact anyContains_of_mem _ "  Log in manually: vercel login" _
            (by simp [hmem]) (by decide)

theorem claim8_witness :
    (mainRun envModalDeclined sessDemo (some []) (some tmplDemo) subAllOk).exitCode = 1
      ∧ (mainRun envModalDeclined sessDemo (some []) (some tmplDemo) subAllOk).targetAfter
          = some []
      ∧ anyContains (mainRun envModalDeclined sessDemo (some []) (some tmplDemo) subAllOk).outputs
          "uv tool install modal" = true := by
  have h := claim8_decline_or_failure_aborts envModalDeclined sessDemo (some []) (some tmplDemo)
    subAllOk (by decide) (Or.inl (by decide))
  exact ⟨h.1, h.2.1, h.2.2.2.2.2.2.1 (Or.inl (by decide))⟩

/-- Claim C7: when all three tools are already installed and authenticated
(Claude Code answers with its banner, Modal and Vercel report an identity),
the orchestrator resolves all prerequisites and its subprocess trace is
exactly the six detection calls — zero install and zero authentication
commands are issued. -/
theorem claim7_ready_only_detection (env : OrchEnv) (mu vu : String)
    (h1 : env.claudeVersionOk = true) (h2 : env.claudeOutputHasClaudeCode = true)
    (h3 : env.modalInstalled = true) (h4 : env.modalUserBefore = some mu)
    (h5 : env.vercelInstalled = true) (h6 : env.vercelUserBefore = some vu) :
    (mainPrereq env).result = some (mu, vu)
      ∧ (mainPrereq env).trace
          = [Cmd.claudeVersion, Cmd.claudeVersion, Cmd.modalVersion, Cmd.modalProfileCurrent,
             Cmd.vercelVersion, Cmd.vercelWhoami]
      ∧ ∀ c ∈ (mainPrereq env).trace, c.isDetect = true := by
  have hc := ensureClaudeCode_ready env (by simp [claudeReady, h1, h2])
  have hm := ensureModal_ready env mu h3 h4
  have hv := ensureVercel_ready env vu h5 h6
  refine ⟨?_, ?_, ?_⟩ <;> simp [mainPrereq, hc, hm, hv, Cmd.isDetect]

theorem claim7_witness :
    (mainPrereq envReady).result = some ("alice", "ada")
      ∧ (mainPrereq envReady).trace
          = [Cmd.claudeVersion, Cmd.claudeVersion, Cmd.modalVersion, Cmd.modalProfileCurrent,
             Cmd.vercelVersion, Cmd.vercelWhoami]
      ∧ ∀ c ∈ (mainPrereq envReady).trace, c.isDetect = true :=
  claim7_ready_only_detection envReady "alice" "ada" rfl rfl rfl rfl rfl rfl

/-- Claim C9 (counterexample): with all dependency installs succeeding but
`git init` (and the final `git add`/`git commit`) failing, `createProject`
still completes and reports success, yet emits no warning at all — the
version-control failure is silently swallowed, not downgraded to a warning
naming the step and the manual command. -/
theorem claim9_cex :
    (⟨false, false, true, true, true, true, false, false⟩ : SubprocResults).gitInitOk = false
      ∧ (createProject cfgDemo none (some tmplDemo)
            ⟨false, false, true, true, true, true, false, false⟩).error = none
      ∧ (createProject cfgDemo none (some tmplDemo)
            ⟨false, false, true, true, true, true, false, false⟩).scaffolded = true
      ∧ (createProject cfgDemo none (some tmplDemo)
            ⟨false, false, true, true, true, true, false, false⟩).warnings = [] := by
  decide

/-- Claim C9 (amended): once the tree is materialized, a failing dependency
installation (pnpm install at the root or in frontend/, uv sync in
backend/ or agent/) is downgraded to a warning naming the step and the
manual command, and `createProject` still completes and reports success;
failing git initialization or commit steps are silently ignored — the only
warnings ever emitted are the four dependency-installation warnings. -/
theorem claim9_convenience_warnings
    (cfg : ProjectConfig) (target : Option (List FSEntry)) (t tree : List FSEntry)
    (sub : SubprocResults)
    (h1 : target = none ∨ target = some [])
    (h2 : copyDir cfg.projectName t = (tree, none))
    (h3 : hasDirNamed "frontend" tree = true) :
    (createProject cfg target (some t) sub).error = none
      ∧ (createProject cfg target (some t) sub).scaffolded = true
      ∧ (sub.pnpmRootOk = false →
          warnRootDeps ∈ (createProject cfg target (some t) sub).warnings)
      ∧ (sub.pnpmFrontendOk = false →
          warnFrontendDeps ∈ (createProject cfg target (some t) sub).warnings)
      ∧ (sub.uvBackendOk = false →
          warnBackendDeps ∈ (createProject cfg target (some t) sub).warnings)
      ∧ (sub.uvAgentOk = false →
          warnAgentDeps ∈ (createProject cfg target (some t) sub).warnings)
      ∧ (∀ w ∈ (createProject cfg target (some t) sub).warnings,
          w = warnRootDeps ∨ w = warnFrontendDeps ∨ w = warnBackendDeps ∨ w = warnAgentDeps) := by
  have hc : createProject cfg target (some t) sub = createProjectGo cfg target (some t) sub := by
    rcases h1 with rfl | rfl <;> rfl
  rw [hc]
  obtain ⟨g1, g2, p1, p2, u1, u2, g3, g4⟩ := sub
  cases p1 <;> cases p2 <;> cases u1 <;> cases u2 <;>
    simp [createProjectGo, h2, writeInDir, h3]

theorem no_newline_of_matches (pn : String) (h : matchesNamePattern pn = true) :
    ∀ c ∈ pn.data, c ≠ '\n' := by
  intro c hc heq
  have hconj : pn.data.isEmpty = false ∧ pn.data.all validChar = true := by
    simpa [matchesNamePattern] using h
  have hv := List.all_eq_true.mp hconj.2 c hc
  subst heq
  exact absurd hv (by decide)

/-- Claim C5: whenever at least one half of the credential pair is absent
(empty), the generated `.env.local` contains the commented placeholder
lines for both credential keys, and no line of the file is an uncommented
`VITE_MODAL_KEY=` or `VITE_MODAL_SECRET=` assignment — a half-filled pair
is never written.  (The account name is newline-free as produced by
`modal profile current`, and the project name has been validated.) -/
theorem claim5_credential_pair (u pn modalKey modalSecret : String)
    (hks : modalKey = "" ∨ modalSecret = "")
    (hu : ∀ c ∈ u.data, c ≠ '\n')
    (hp : matchesNamePattern pn = true) :
    "# VITE_MODAL_KEY=wk-xxx".data ∈ linesOf (envLocalContent u pn modalKey modalSecret)
      ∧ "# VITE_MODAL_SECRET=ws-xxx".data ∈ linesOf (envLocalContent u pn modalKey modalSecret)
      ∧ ∀ l ∈ linesOf (envLocalContent u pn modalKey modalSecret),
          ("VITE_MODAL_KEY=".data.isPrefixOf l = false
            ∧ "VITE_MODAL_SECRET=".data.isPrefixOf l = false) := by
  have hpn := no_newline_of_matches pn hp
  have hauth : authSection modalKey modalSecret
      = "# Proxy auth not configured - API is publicly accessible\n# Add these for production security:\n# VITE_MODAL_KEY=wk-xxx\n# VITE_MODAL_SECRET=ws-xxx" := by
    rcases hks with rfl | rfl
    · unfold authSection
      rw [if_neg (by simp [show ("" : String).isEmpty = true from rfl])]
    · unfold authSection
      rw [if_neg (by simp [show ("" : String).isEmpty = true from rfl])]
  have hB : ∀ X : List Char, ("\n" : String).data ++ X = '\n' :: X := fun X => rfl
  have hA : ∀ rest : List Char,
      ("# Modal API Configuration (Development)\nVITE_API_URL=" : String).data
          ++ (("https://" : String).data ++ rest)
        = "# Modal API Configuration (Development)".data
            ++ ('\n' :: ("VITE_API_URL=https://".data ++ rest)) := by
    intro rest
    rw [← List.append_assoc]
    rw [show ("# Modal API Configuration (Development)\nVITE_API_URL=" : String).data
          ++ ("https://" : String).data
        = "# Modal API Configuration (Development)".data
            ++ ('\n' :: "VITE_API_URL=https://".data) from by decide]
    simp [List.append_assoc]
  have hP : ∀ rest : List Char,
      ("# Proxy auth not configured - API is publicly accessible\n# Add these for production security:\n# VITE_MODAL_KEY=wk-xxx\n# VITE_MODAL_SECRET=ws-xxx" : String).data
          ++ rest
        = "# Proxy auth not configured - API is publicly accessible".data
            ++ ('\n' :: ("# Add these for production security:".data
            ++ ('\n' :: ("# VITE_MODAL_KEY=wk-xxx".data
            ++ ('\n' :: ("# VITE_MODAL_SECRET=ws-xxx".data ++ rest)))))) := by
    intro rest
    rw [show ("# Proxy auth not configured - API is publicly accessible\n# Add these for production security:\n# VITE_MODAL_KEY=wk-xxx\n# VITE_MODAL_SECRET=ws-xxx" : String).data
        = "# Proxy auth not configured - API is publicly accessible".data
            ++ ('\n' :: ("# Add these for production security:".data
            ++ ('\n' :: ("# VITE_MODAL_KEY=wk-xxx".data
            ++ ('\n' :: "# VITE_MODAL_SECRET=ws-xxx".data))))) from by decide]
    simp [List.append_assoc]
  have hC : ∀ rest : List Char,
      ("\n\n# Production URL (for reference, configure in Vercel)\n# VITE_API_URL=" : String).data
          ++ (("https://" : String).data ++ rest)
        = '\n' :: ('\n' :: ("# Production URL (for reference, configure in Vercel)".data
            ++ ('\n' :: ("# VITE_API_URL=https://".data ++ rest)))) := by
    intro rest
    rw [← List.append_assoc]
    rw [show ("\n\n# Production URL (for reference, configure in Vercel)\n# VITE_API_URL=" : String).data
          ++ ("https://" : String).data
        = '\n' :: ('\n' :: ("# Production URL (for reference, configure in Vercel)".data
            ++ ('\n' :: "# VITE_API_URL=https://".data))) from by decide]
    simp [List.append_assoc]
  have hdata : (envLocalContent u pn modalKey modalSecret).data
      = "# Modal API Configuration (Development)".data ++ ('\n' :: ("VITE_API_URL=https://".data ++ (u.data ++ ("--".data ++ (pn.data ++ ("-backend-fastapi-app-dev.modal.run".data ++ ('\n' :: ("# Proxy auth not configured - API is publicly accessible".data ++ ('\n' :: ("# Add these for production security:".data ++ ('\n' :: ("# VITE_MODAL_KEY=wk-xxx".data ++ ('\n' :: ("# VITE_MODAL_SECRET=ws-xxx".data ++ ('\n' :: ('\n' :: ("# Production URL (for reference, configure in Vercel)".data ++ ('\n' :: ("# VITE_API_URL=https://".data ++ (u.data ++ ("--".data ++ (pn.data ++ ("-backend-fastapi-app.modal.run".data ++ (['\n'])))))))))))))))))))))))) := by
    unfold envLocalContent devApiUrl prodApiUrl
    rw [hauth]
    simp only [String.data_append, List.append_assoc]
    rw [hA, hB, hP, hC]
  have hlines : linesOf (envLocalContent u pn modalKey modalSecret)
      = ["# Modal API Configuration (Development)".data,
         "VITE_API_URL=https://".data
           ++ (u.data ++ ("--".data ++ (pn.data ++ "-backend-fastapi-app-dev.modal.run".data))),
         "# Proxy auth not configured - API is publicly accessible".data,
         "# Add these for production security:".data,
         "# VITE_MODAL_KEY=wk-xxx".data,
         "# VITE_MODAL_SECRET=ws-xxx".data,
         [],
         "# Production URL (for reference, configure in Vercel)".data,
         "# VITE_API_URL=https://".data
           ++ (u.data ++ ("--".data ++ (pn.data ++ "-backend-fastapi-app.modal.run".data))),
         []] := by
    unfold linesOf
    rw [hdata]
    rw [splitNL_append_nf "# Modal API Configuration (Development)".data _ (by decide),
        splitNL_cons_newline,
        splitNL_append_nf "VITE_API_URL=https://".data _ (by decide),
        splitNL_append_nf u.data _ hu,
        splitNL_append_nf "--".data _ (by decide),
        splitNL_append_nf pn.data _ hpn,
        splitNL_append_nf "-backend-fastapi-app-dev.modal.run".data _ (by decide),
        splitNL_cons_newline,
        splitNL_append_nf "# Proxy auth not configured - API is publicly accessible".data _
          (by decide),
        splitNL_cons_newline,
        splitNL_append_nf "# Add these for production security:".data _ (by decide),
        splitNL_cons_newline,
        splitNL_append_nf "# VITE_MODAL_KEY=wk-xxx".data _ (by decide),
        splitNL_cons_newline,
        splitNL_append_nf "# VITE_MODAL_SECRET=ws-xxx".data _ (by decide),
        splitNL_cons_newline,
        splitNL_cons_newline,
        splitNL_append_nf "# Production URL (for reference, configure in Vercel)".data _
          (by decide),
        splitNL_cons_newline,
        splitNL_append_nf "# VITE_API_URL=https://".data _ (by decide),
        splitNL_append_nf u.data _ hu,
        splitNL_append_nf "--".data _ (by decide),
        splitNL_append_nf pn.data _ hpn,
        splitNL_append_nf "-backend-fastapi-app.modal.run".data _ (by decide),
        splitNL_cons_newline]
    simp [splitNL]
  refine ⟨?_, ?_, ?_⟩
  · rw [hlines]
    simp
  · rw [hlines]
    simp
  · rw [hlines]
    intro l hl
    simp only [List.mem_cons, List.not_mem_nil, or_false] at hl
    rcases hl with rfl | rfl | rfl | rfl | rfl | rfl | rfl | rfl | rfl | rfl
    all_goals exact ⟨rfl, rfl⟩

theorem claim5_witness :
    ("# VITE_MODAL_KEY=wk-xxx".data ∈ linesOf (envLocalContent "alice" "demo" "" "ws-123"))
      ∧ ("# VITE_MODAL_SECRET=ws-xxx".data
          ∈ linesOf (envLocalContent "alice" "demo" "" "ws-123")) := by
  have h := claim5_credential_pair "alice" "demo" "" "ws-123" (Or.inl rfl) (by decide) (by decide)
  exact ⟨h.1, h.2.1⟩

theorem claim9_witness :
    copyDir cfgDemo.projectName tmplDemo
        = ([FSEntry.dir "frontend" [FSEntry.file "index.html" "<title>demo</title>"],
            FSEntry.file ".gitignore" "node_modules"], none)
      ∧ (createProject cfgDemo none (some tmplDemo)
            ⟨true, true, false, true, true, true, true, true⟩).error = none
      ∧ (createProject cfgDemo none (some tmplDemo)
            ⟨true, true, false, true, true, true, true, true⟩).scaffolded = true
      ∧ warnRootDeps ∈ (createProject cfgDemo none (some tmplDemo)
            ⟨true, true, false, true, true, true, true, true⟩).warnings := by
  refine ⟨by decide, ?_, ?_, ?_⟩
  · exact (claim9_convenience_warnings cfgDemo none tmplDemo
      [FSEntry.dir "frontend" [FSEntry.file "index.html" "<title>demo</title>"],
       FSEntry.file ".gitignore" "node_modules"] _ (Or.inl rfl) (by decide) (by decide)).1
  · exact (claim9_convenience_warnings cfgDemo none tmplDemo
      [FSEntry.dir "frontend" [FSEntry.file "index.html" "<title>demo</title>"],
       FSEntry.file ".gitignore" "node_modules"] _ (Or.inl rfl) (by decide) (by decide)).2.1
  · exact (claim9_convenience_warnings cfgDemo none tmplDemo
      [FSEntry.dir "frontend" [FSEntry.file "index.html" "<title>demo</title>"],
       FSEntry.file ".gitignore" "node_modules"] _ (Or.inl rfl) (by decide) (by decide)).2.2.1 rfl

end CreateFastreact
